import Mathlib

/-!
Verification of the real-time driving event-detection engine of the
pwa-driving repository.

The development shallowly embeds the two `DataProcessor` variants of the
source into Lean:

* the field-tested hybrid variant v2.2 (`src/data-processor.js`):
  state type `ProcState`, entry point `processDataPoint`;
* the calibrated variant v2.1 (`src/unnamed/part_001`):
  severity function `calculateSeverityV21` and the event detector
  `detectDrivingEventsFilteredV21`.

Modelling conventions:

* JS numbers are modelled as rationals (`ℚ`); optional numeric record
  fields as `Option ℚ`.  JS truthiness of a number field (`!x`,
  `a && b`, `a || b`) is modelled by `truthy` / `orQ`: `undefined` and
  `0` are falsy, every other number truthy.
* `Math.sqrt` is modelled by the computable `jsSqrt`, which agrees with
  the real square root on squares of rationals (the only points at which
  any theorem below depends on its value is `jsSqrt 0 = 0`).
* `Utils.calculateDistance` (haversine, transcendental) is passed as an
  abstract parameter `dist`; no claim depends on its values.
* `Date.now()` is passed explicitly as the `now : ℚ` argument of each
  call (milliseconds).
* A raw sample's `timestamp` field is modelled by its JS runtime type
  tag (`isString`, checked by `Utils.validateDataStructure`) together
  with the instant `ms` that `new Date(timestamp)` denotes; likewise
  `participante` by its type tag.
* The observer/listener plumbing (`eventListeners`, `emitEvent`) only
  forwards already-computed values to the excluded UI layer and is not
  part of the state model; the unused `movementStartTime` field and the
  log-only `speedLimits` table are likewise omitted (`currentSpeedLimit`
  is kept).  The `wasMoving` logging flag is kept because `reset` does
  not clear it.
-/

set_option allowUnsafeReducibility true in
attribute [semireducible] Rat.mul Rat.inv Rat.add Rat.sub Rat.ofScientific

/-- JS truthiness of an optional number: `undefined` and `0` are falsy. -/
def truthy : Option ℚ → Bool
  | none => false
  | some q => q != 0

/-- JS `a || b` for an optional number `a` and default `b`. -/
def orQ : Option ℚ → ℚ → ℚ
  | none, d => d
  | some q, d => if q = 0 then d else q

/-- JS `a || null` for an optional number `a` (`0` collapses to `null`). -/
def orNull : Option ℚ → Option ℚ
  | none => none
  | some q => if q = 0 then none else some q

/-- Bounded binary search for the integer square root (plain structural
recursion on the fuel, so that the kernel can evaluate it; 128
iterations cover every input below `2^128`).  Maintains `lo ≤ √n < hi`. -/
def natSqrtAux : ℕ → ℕ → ℕ → ℕ → ℕ
  | 0, _, lo, _ => lo
  | fuel + 1, n, lo, hi =>
    let mid := (lo + hi) / 2
    if mid = lo then lo
    else if mid * mid ≤ n then natSqrtAux fuel n mid hi
    else natSqrtAux fuel n lo mid

/-- Kernel-evaluable integer square root. -/
def natSqrt (n : ℕ) : ℕ := natSqrtAux 128 n 0 (n + 1)

/-- Models `Math.sqrt` on the rationals: computable, `0` below `0`,
and exact on squares of rationals (elsewhere a floor-style
approximation, on which no theorem below depends). -/
def jsSqrt (q : ℚ) : ℚ :=
  if q ≤ 0 then 0
  else (natSqrt q.num.toNat : ℚ) / (natSqrt q.den : ℚ)

/-- The source's bounded-FIFO push pattern
(`list.push(x); if (list.length > bound) list.shift();`), shared by the
acceleration history (bound 10), motion history (bound 20) and data
buffer (bound `bufferSize`). -/
def pushBounded {α : Type} (bound : ℕ) (l : List α) (x : α) : List α :=
  let l0 := l ++ [x]
  if bound < l0.length then l0.tail else l0

/-- The runtime value of a raw sample's `timestamp` field: its JS type
tag together with the instant (ms) that `new Date(·)` denotes. -/
structure JsTimestamp where
  isString : Bool
  ms : ℚ
  deriving DecidableEq, Repr

/-- The runtime value of a raw sample's `participante` field: only its
JS type tag is ever inspected. -/
structure JsTag where
  isString : Bool
  deriving DecidableEq, Repr

/-- A raw sensor sample, as passed to `processDataPoint`. -/
structure RawData where
  timestamp : Option JsTimestamp
  participante : Option JsTag
  lat : Option ℚ
  lon : Option ℚ
  velocidad : Option ℚ
  x : Option ℚ
  y : Option ℚ
  z : Option ℚ
  deriving DecidableEq, Repr

/-- `Utils.validateDataStructure` (src/unnamed/part_000): the required
fields `timestamp` and `participante` must be present and of string
type; the optional sensor fields are not checked. -/
def validateDataStructure (d : RawData) : Bool :=
  match d.timestamp, d.participante with
  | some t, some p => t.isString && p.isString
  | _, _ => false

/-- An entry of `accelerationHistory`. -/
structure AccelSample where
  x : ℚ
  y : ℚ
  z : ℚ
  magnitude : ℚ
  timestamp : ℚ
  deriving DecidableEq, Repr

/-- An entry of `motionHistory`. -/
structure MotionSample where
  moving : Bool
  variation : ℚ
  timestamp : ℚ
  deriving DecidableEq, Repr

/-- `baselineAcceleration` once established. -/
structure Baseline where
  x : ℚ
  y : ℚ
  z : ℚ
  magnitude : ℚ
  deriving DecidableEq, Repr

/-- `lastGPSPoint`. -/
structure GPSPoint where
  lat : ℚ
  lon : ℚ
  timestamp : ℚ
  deriving DecidableEq, Repr

/-- A filtered acceleration vector. -/
structure Vec3 where
  x : ℚ
  y : ℚ
  z : ℚ
  deriving DecidableEq, Repr

/-- The `thresholds` configuration object of the v2.2 processor. -/
structure Thresholds where
  harsh_acceleration : ℚ
  harsh_braking : ℚ
  aggressive_turn : ℚ
  speeding : ℚ
  minimum_speed : ℚ
  motion_threshold : ℚ
  sustained_motion : ℚ
  acceleration_noise : ℚ
  gps_noise : ℚ
  stability_time : ℚ
  deriving DecidableEq, Repr

/-- The calibrated v2.2 defaults (src/data-processor.js, constructor). -/
def defaultThresholds : Thresholds where
  harsh_acceleration := 2
  harsh_braking := 2
  aggressive_turn := 3
  speeding := 25
  minimum_speed := 3
  motion_threshold := 1.5
  sustained_motion := 5
  acceleration_noise := 0.5
  gps_noise := 1
  stability_time := 2000

/-- The `eventCounters` object. -/
structure EventCounters where
  harsh_acceleration : ℕ
  harsh_braking : ℕ
  aggressive_turn : ℕ
  speeding : ℕ
  deriving DecidableEq, Repr

/-- The `lastEventTime` map (keys appear once the first event of the
type fires; a stored time of `0` is falsy in JS, hence `Option ℚ`
combined with `truthy` below). -/
structure EventTimes where
  harsh_acceleration : Option ℚ
  harsh_braking : Option ℚ
  aggressive_turn : Option ℚ
  speeding : Option ℚ
  deriving DecidableEq, Repr

inductive EventType
  | harsh_acceleration
  | harsh_braking
  | aggressive_turn
  | speeding
  deriving DecidableEq, Repr

inductive Severity
  | low
  | moderate
  | high
  | extreme
  deriving DecidableEq, Repr

inductive TurnDirection
  | left
  | right
  deriving DecidableEq, Repr

/-- `detection_method` metadata. -/
inductive DetectionMethod
  | gpsAccel
  | accelOnly
  deriving DecidableEq, Repr

/-- An enriched sample (output of `enrichDataFieldTested`, also the
element type of `dataBuffer`). -/
structure Enriched where
  timestampMs : ℚ
  lat : Option ℚ
  lon : Option ℚ
  velocidad : Option ℚ
  x : Option ℚ
  y : Option ℚ
  z : Option ℚ
  acceleration_magnitude : Option ℚ
  filtered_acceleration : Option Vec3
  estimated_speed : Option ℚ
  longitudinal_acceleration : Option ℚ
  vehicle_moving : Bool
  movement_confidence : ℕ
  gps_available : Bool
  detection_method : DetectionMethod
  deriving DecidableEq, Repr

/-- The mutable state of the v2.2 `DataProcessor`. -/
structure ProcState where
  thresholds : Thresholds
  eventCounters : EventCounters
  dataBuffer : List Enriched
  bufferSize : ℕ
  accelerationHistory : List AccelSample
  motionHistory : List MotionSample
  baselineAcceleration : Option Baseline
  lastEventTime : EventTimes
  isVehicleMoving : Bool
  movementConfidence : ℕ
  gpsAvailable : Bool
  wasMoving : Option Bool
  lastRecordTime : ℚ
  recordInterval : ℚ
  lastGPSPoint : Option GPSPoint
  currentSpeedLimit : ℚ
  deriving DecidableEq, Repr

/-- The state built by the v2.2 constructor. -/
def initState : ProcState where
  thresholds := defaultThresholds
  eventCounters := ⟨0, 0, 0, 0⟩
  dataBuffer := []
  bufferSize := 8
  accelerationHistory := []
  motionHistory := []
  baselineAcceleration := none
  lastEventTime := ⟨none, none, none, none⟩
  isVehicleMoving := false
  movementConfidence := 0
  gpsAvailable := false
  wasMoving := none
  lastRecordTime := 0
  recordInterval := 1500
  lastGPSPoint := none
  currentSpeedLimit := 60

/-- `calculateAccelerationBaseline`: mean of the last 5 history entries,
`null` below 5 entries. -/
def calculateAccelerationBaseline (hist : List AccelSample) : Option Baseline :=
  if hist.length < 5 then none
  else
    let recent := hist.drop (hist.length - 5)
    some
      { x := (recent.map (·.x)).sum / (recent.length : ℚ)
        y := (recent.map (·.y)).sum / (recent.length : ℚ)
        z := (recent.map (·.z)).sum / (recent.length : ℚ)
        magnitude := (recent.map (·.magnitude)).sum / (recent.length : ℚ) }

/-- `calculateAccelerationVariation`: Euclidean distance of the current
vector from the baseline, `0` when no baseline exists. -/
def calculateAccelerationVariation (bl : Option Baseline) (current : AccelSample) : ℚ :=
  match bl with
  | none => 0
  | some b =>
    let dX := |current.x - b.x|
    let dY := |current.y - b.y|
    let dZ := |current.z - b.z|
    jsSqrt (dX ^ 2 + dY ^ 2 + dZ ^ 2)

/-- `hasSustainedMotion`: at least 3 of the last 5 motion flags set. -/
def hasSustainedMotion (mh : List MotionSample) : Bool :=
  if mh.length < 5 then false
  else decide (3 ≤ ((mh.drop (mh.length - 5)).filter (·.moving)).length)

/-- The tail of `detectMotionFromAccelerometer` after the baseline
bookkeeping (`if (!this.baselineAcceleration) return false;` onwards):
computes the variation from the baseline, appends to the 20-entry
motion history and returns the motion flag. -/
def motionFlagStep (st2 : ProcState) (currentAccel : AccelSample) (now : ℚ) :
    ProcState × Bool :=
  if st2.baselineAcceleration.isNone then (st2, false)
  else
    let variation := calculateAccelerationVariation st2.baselineAcceleration currentAccel
    let moving : Bool := decide (st2.thresholds.motion_threshold < variation)
    ({ st2 with
        motionHistory := pushBounded 20 st2.motionHistory ⟨moving, variation, now⟩ },
      moving)

/-- `detectMotionFromAccelerometer`: maintains the 10-entry acceleration
history, establishes the baseline once at 5 history entries, and flags
motion via `motionFlagStep`.  Fields whose value is exactly `0` make
the whole sample count as accelerometer-less (JS truthiness). -/
def detectMotionFromAccelerometer (st : ProcState) (data : RawData) (now : ℚ) :
    ProcState × Bool :=
  if ¬ (truthy data.x && truthy data.y && truthy data.z) then (st, false)
  else
    let x := data.x.getD 0
    let y := data.y.getD 0
    let z := data.z.getD 0
    let currentAccel : AccelSample :=
      { x := x, y := y, z := z, magnitude := jsSqrt (x ^ 2 + y ^ 2 + z ^ 2),
        timestamp := now }
    let hist := pushBounded 10 st.accelerationHistory currentAccel
    let st1 := { st with accelerationHistory := hist }
    let st2 :=
      if st1.baselineAcceleration.isNone ∧ 5 ≤ hist.length then
        { st1 with baselineAcceleration := calculateAccelerationBaseline hist }
      else st1
    motionFlagStep st2 currentAccel now

/-- `hasGPSMovement`: displacement-over-time test against the last GPS
fix; updates the fix whenever `lat`/`lon` are truthy.  `dist` stands for
`Utils.calculateDistance`. -/
def hasGPSMovement (dist : ℚ → ℚ → ℚ → ℚ → ℚ) (st : ProcState) (data : RawData)
    (now : ℚ) : ProcState × Bool :=
  match st.lastGPSPoint, truthy data.lat && truthy data.lon with
  | some lastP, true =>
    let distance := dist lastP.lat lastP.lon (data.lat.getD 0) (data.lon.getD 0)
    let timeDiff := (now - lastP.timestamp) / 1000
    let calculatedSpeed := if 0 < timeDiff then distance / timeDiff * 3.6 else 0
    ({ st with lastGPSPoint := some ⟨data.lat.getD 0, data.lon.getD 0, now⟩ },
      decide (st.thresholds.gps_noise < calculatedSpeed))
  | _, _ =>
    if truthy data.lat && truthy data.lon then
      ({ st with lastGPSPoint := some ⟨data.lat.getD 0, data.lon.getD 0, now⟩ }, false)
    else (st, false)

/-- `updateHybridMovementDetection`: fuses GPS and accelerometer
evidence into `movementConfidence` (capped at 100) and sets
`isVehicleMoving` by comparing against 50 (GPS available) or 40 (GPS
unavailable). -/
def updateHybridMovementDetection (dist : ℚ → ℚ → ℚ → ℚ → ℚ) (st : ProcState)
    (data : RawData) (now : ℚ) : ProcState :=
  let hasGPS := truthy data.lat && truthy data.lon
  let st0 := { st with gpsAvailable := hasGPS }
  let gpsStep : ProcState × Bool × Bool :=
    if hasGPS then
      let speed := orQ data.velocidad 0
      let sc : Bool := decide (st0.thresholds.minimum_speed < speed)
      let gm := hasGPSMovement dist st0 data now
      (gm.1, sc, gm.2)
    else (st0, false, false)
  let st1 := gpsStep.1
  let speedCriteria := gpsStep.2.1
  let gpsMotion := gpsStep.2.2
  let am := detectMotionFromAccelerometer st1 data now
  let st2 := am.1
  let accelMotion := am.2
  let confidence : ℕ :=
    if st2.gpsAvailable then
      (if speedCriteria then 40 else 0) + (if gpsMotion then 30 else 0) +
        (if accelMotion then 30 else 0)
    else
      (if accelMotion then 70 else 0) +
        (if hasSustainedMotion st2.motionHistory then 30 else 0)
  let st3 := { st2 with movementConfidence := min confidence 100 }
  let decisionBar : ℕ := if st3.gpsAvailable then 50 else 40
  let st4 := { st3 with isVehicleMoving := decide (decisionBar < st3.movementConfidence) }
  if st4.wasMoving == some st4.isVehicleMoving then st4
  else { st4 with wasMoving := some st4.isVehicleMoving }

/-- `calculateFilteredAcceleration`: raw minus baseline component-wise,
raw unchanged while no baseline exists. -/
def calculateFilteredAcceleration (bl : Option Baseline) (x y z : ℚ) : Vec3 :=
  match bl with
  | none => ⟨x, y, z⟩
  | some b => ⟨x - b.x, y - b.y, z - b.z⟩

/-- `estimateSpeedFromAccelerometer`: step-function heuristic over the
average variation of the last 3 history entries. -/
def estimateSpeedFromAccelerometer (st : ProcState) : ℚ :=
  if st.accelerationHistory.length < 3 then 0
  else
    let recent := st.accelerationHistory.drop (st.accelerationHistory.length - 3)
    let avgVariation :=
      (recent.map (calculateAccelerationVariation st.baselineAcceleration)).sum /
        (recent.length : ℚ)
    if 4 < avgVariation then 60
    else if 2 < avgVariation then 35
    else if 1 < avgVariation then 15
    else 5

/-- `calculateLongitudinalAcceleration`: finite difference of measured
(or else estimated) speed over the time elapsed since the last buffered
sample, converted to m/s². -/
def calculateLongitudinalAcceleration (buffer : List Enriched) (data : Enriched) : ℚ :=
  match buffer.getLast? with
  | none => 0
  | some lastPoint =>
    let timeDelta := (data.timestampMs - lastPoint.timestampMs) / 1000
    if timeDelta ≤ 0 then 0
    else if data.velocidad.isSome ∧ lastPoint.velocidad.isSome then
      ((data.velocidad.getD 0 - lastPoint.velocidad.getD 0) / timeDelta) / 3.6
    else if data.estimated_speed.isSome ∧ lastPoint.estimated_speed.isSome then
      ((data.estimated_speed.getD 0 - lastPoint.estimated_speed.getD 0) / timeDelta) / 3.6
    else 0

/-- `enrichDataFieldTested`. -/
def enrichDataFieldTested (st : ProcState) (raw : RawData) : Enriched :=
  let ts : ℚ := match raw.timestamp with
    | some t => t.ms
    | none => 0
  let accelDefined := raw.x.isSome ∧ raw.y.isSome ∧ raw.z.isSome
  let x := raw.x.getD 0
  let y := raw.y.getD 0
  let z := raw.z.getD 0
  let base : Enriched :=
    { timestampMs := ts, lat := raw.lat, lon := raw.lon, velocidad := raw.velocidad,
      x := raw.x, y := raw.y, z := raw.z,
      acceleration_magnitude :=
        if accelDefined then some (jsSqrt (x ^ 2 + y ^ 2 + z ^ 2)) else none,
      filtered_acceleration :=
        if accelDefined then
          some (calculateFilteredAcceleration st.baselineAcceleration x y z)
        else none,
      estimated_speed :=
        if ¬ truthy raw.velocidad ∧ st.isVehicleMoving then
          some (estimateSpeedFromAccelerometer st)
        else none,
      longitudinal_acceleration := none,
      vehicle_moving := st.isVehicleMoving,
      movement_confidence := st.movementConfidence,
      gps_available := st.gpsAvailable,
      detection_method := if st.gpsAvailable then .gpsAccel else .accelOnly }
  if st.dataBuffer ≠ [] then
    { base with
      longitudinal_acceleration := some (calculateLongitudinalAcceleration st.dataBuffer base) }
  else base

/-- `calculateInstantLongitudinal`: the Y component of the filtered
vector (`filteredAccel.y || 0` is the identity on a number field). -/
def calculateInstantLongitudinal (filteredAccel : Vec3) : ℚ :=
  filteredAccel.y

/-- v2.2 `calculateSeverity` (src/data-processor.js line 484). -/
def calculateSeverity (value threshold : ℚ) : Severity :=
  let r := value / threshold
  if 2 ≤ r then .extreme
  else if 1.5 ≤ r then .high
  else if 1.2 ≤ r then .moderate
  else .low

/-- `calculateSpeedingSeverity`: absolute excess breakpoints. -/
def calculateSpeedingSeverity (excess : ℚ) : Severity :=
  if 40 ≤ excess then .extreme
  else if 30 ≤ excess then .high
  else if 20 ≤ excess then .moderate
  else .low

/-- A classified driving event (v2.2 shape; `speed`/`limit` are only
set by the speeding rule, `direction` only by the turn rule). -/
structure DrivingEvent where
  type : EventType
  severity : Severity
  value : ℚ
  direction : Option TurnDirection
  method : DetectionMethod
  timestamp : ℚ
  lat : Option ℚ
  lon : Option ℚ
  confidence : ℕ
  speed : Option ℚ
  limit : Option ℚ
  deriving DecidableEq, Repr

/-- The per-type debounce test
`!lastEventTime[t] || now - lastEventTime[t] > minT` (a stored time of
`0` is falsy in JS). -/
def debounceOk (lastT : Option ℚ) (now minT : ℚ) : Bool :=
  !(truthy lastT) || decide (minT < now - lastT.getD 0)

/-- Block 1 of v2.2 `detectEventsHybrid`: harsh acceleration. -/
def hybridAccelEvent (st : ProcState) (data : Enriched) (now minT : ℚ) :
    ProcState × List DrivingEvent :=
  match data.filtered_acceleration with
  | none => (st, [])
  | some fa =>
    let longitudinal := orQ data.longitudinal_acceleration (calculateInstantLongitudinal fa)
    if st.thresholds.harsh_acceleration < longitudinal ∧
        debounceOk st.lastEventTime.harsh_acceleration now minT then
      ({ st with lastEventTime.harsh_acceleration := some now },
        [{ type := .harsh_acceleration,
           severity := calculateSeverity longitudinal st.thresholds.harsh_acceleration,
           value := longitudinal, direction := none, method := data.detection_method,
           timestamp := data.timestampMs, lat := orNull data.lat, lon := orNull data.lon,
           confidence := data.movement_confidence, speed := none, limit := none }])
    else (st, [])

/-- Block 2 of v2.2 `detectEventsHybrid`: harsh braking. -/
def hybridBrakeEvent (st : ProcState) (data : Enriched) (now minT : ℚ) :
    ProcState × List DrivingEvent :=
  match data.filtered_acceleration with
  | none => (st, [])
  | some fa =>
    let longitudinal := orQ data.longitudinal_acceleration (calculateInstantLongitudinal fa)
    if longitudinal < -st.thresholds.harsh_braking ∧
        debounceOk st.lastEventTime.harsh_braking now minT then
      ({ st with lastEventTime.harsh_braking := some now },
        [{ type := .harsh_braking,
           severity := calculateSeverity |longitudinal| st.thresholds.harsh_braking,
           value := |longitudinal|, direction := none, method := data.detection_method,
           timestamp := data.timestampMs, lat := orNull data.lat, lon := orNull data.lon,
           confidence := data.movement_confidence, speed := none, limit := none }])
    else (st, [])

/-- Block 3 of v2.2 `detectEventsHybrid`: aggressive turn (note: no
speed gate in this variant). -/
def hybridTurnEvent (st : ProcState) (data : Enriched) (now minT : ℚ) :
    ProcState × List DrivingEvent :=
  match data.filtered_acceleration with
  | none => (st, [])
  | some fa =>
    let lateral := |fa.x|
    if st.thresholds.aggressive_turn < lateral ∧
        debounceOk st.lastEventTime.aggressive_turn now minT then
      ({ st with lastEventTime.aggressive_turn := some now },
        [{ type := .aggressive_turn,
           severity := calculateSeverity lateral st.thresholds.aggressive_turn,
           value := lateral,
           direction := some (if 0 < fa.x then .right else .left),
           method := data.detection_method,
           timestamp := data.timestampMs, lat := orNull data.lat, lon := orNull data.lon,
           confidence := data.movement_confidence, speed := none, limit := none }])
    else (st, [])

/-- Block 4 of v2.2 `detectEventsHybrid`: speeding (debounced over
`2 × stability_time`). -/
def hybridSpeedEvent (st : ProcState) (data : Enriched) (now minT : ℚ) :
    ProcState × List DrivingEvent :=
  if data.gps_available && truthy data.velocidad then
    if st.thresholds.speeding < data.velocidad.getD 0 - st.currentSpeedLimit ∧
        debounceOk st.lastEventTime.speeding now (minT * 2) then
      ({ st with lastEventTime.speeding := some now },
        [{ type := .speeding,
           severity := calculateSpeedingSeverity (data.velocidad.getD 0 - st.currentSpeedLimit),
           value := data.velocidad.getD 0 - st.currentSpeedLimit, direction := none,
           method := data.detection_method,
           timestamp := data.timestampMs, lat := data.lat, lon := data.lon,
           confidence := data.movement_confidence, speed := data.velocidad,
           limit := some st.currentSpeedLimit }])
    else (st, [])
  else (st, [])

/-- v2.2 `detectEventsHybrid`: emits the debounced events of an
enriched sample, running the four per-type blocks in source order.
Returns the updated state (the `lastEventTime` entries of the emitted
types move to `now`) and the event list. -/
def detectEventsHybrid (st : ProcState) (data : Enriched) (now : ℚ) :
    ProcState × List DrivingEvent :=
  if ¬ st.isVehicleMoving then (st, [])
  else
    let minT := st.thresholds.stability_time
    let p1 := hybridAccelEvent st data now minT
    let p2 := hybridBrakeEvent p1.1 data now minT
    let p3 := hybridTurnEvent p2.1 data now minT
    let p4 := hybridSpeedEvent p3.1 data now minT
    (p4.1, p1.2 ++ (p2.2 ++ (p3.2 ++ p4.2)))

/-- `updateBuffer`: bounded FIFO push. -/
def updateBuffer (st : ProcState) (data : Enriched) : ProcState :=
  { st with dataBuffer := pushBounded st.bufferSize st.dataBuffer data }

def bumpCounter (c : EventCounters) (t : EventType) : EventCounters :=
  match t with
  | .harsh_acceleration => { c with harsh_acceleration := c.harsh_acceleration + 1 }
  | .harsh_braking => { c with harsh_braking := c.harsh_braking + 1 }
  | .aggressive_turn => { c with aggressive_turn := c.aggressive_turn + 1 }
  | .speeding => { c with speeding := c.speeding + 1 }

/-- The per-event counter update of `processDataPoint` (every emitted
type is a key of `eventCounters`, so `hasOwnProperty` always holds). -/
def bumpCounters (c : EventCounters) (events : List DrivingEvent) : EventCounters :=
  events.foldl (fun acc e => bumpCounter acc e.type) c

/-- The non-null return value of `processDataPoint`. -/
structure ProcResult where
  processed : Enriched
  events : List DrivingEvent
  counters : EventCounters
  deriving DecidableEq, Repr

/-- v2.2 `processDataPoint`: rate gate, structural validation, hybrid
movement detection, enrichment, event detection, buffer and counter
update.  Returns the updated state with `none` for a dropped sample.
(The surrounding JS try/catch only turns an engine exception into
`null`; the embedded transformer is total.) -/
def processDataPoint (dist : ℚ → ℚ → ℚ → ℚ → ℚ) (st : ProcState) (now : ℚ)
    (raw : RawData) : ProcState × Option ProcResult :=
  if now - st.lastRecordTime < st.recordInterval then (st, none)
  else
    let stA := { st with lastRecordTime := now }
    if ¬ validateDataStructure raw then (stA, none)
    else
      let stB := updateHybridMovementDetection dist stA raw now
      let processed := enrichDataFieldTested stB raw
      let de := detectEventsHybrid stB processed now
      let stC := updateBuffer de.1 processed
      let stD := { stC with eventCounters := bumpCounters stC.eventCounters de.2 }
      (stD, some { processed := processed, events := de.2, counters := stD.eventCounters })

/-- v2.2 `resetCounters`. -/
def resetCounters (st : ProcState) : ProcState :=
  { st with
    eventCounters := ⟨0, 0, 0, 0⟩
    dataBuffer := []
    accelerationHistory := []
    motionHistory := []
    baselineAcceleration := none
    lastGPSPoint := none
    lastEventTime := ⟨none, none, none, none⟩
    isVehicleMoving := false
    movementConfidence := 0 }

/-- One processed input together with the post-state and the result. -/
structure TraceEntry where
  now : ℚ
  raw : RawData
  post : ProcState
  res : Option ProcResult
  deriving DecidableEq, Repr

/-- Runs `processDataPoint` over a list of `(now, raw)` inputs. -/
def procTrace (dist : ℚ → ℚ → ℚ → ℚ → ℚ) (st : ProcState) :
    List (ℚ × RawData) → List TraceEntry
  | [] => []
  | i :: rest =>
    let r := processDataPoint dist st i.1 i.2
    ⟨i.1, i.2, r.1, r.2⟩ :: procTrace dist r.1 rest

/-- A sample whose three accelerometer fields are present and nonzero
(fields equal to `0` are ignored by `detectMotionFromAccelerometer`). -/
def accelBearing (r : RawData) : Bool :=
  truthy r.x && truthy r.y && truthy r.z

/-- The accepted accelerometer-bearing entries of a trace, each with
its raw sample, post-state and result. -/
def acceptedAccelEntries (tr : List TraceEntry) : List (RawData × ProcState × ProcResult) :=
  tr.filterMap fun e =>
    match e.res with
    | some r => if accelBearing e.raw then some (e.raw, e.post, r) else none
    | none => none

/-- The `thresholds` object of the v2.1 processor
(src/unnamed/part_001, constructor). -/
structure ThresholdsV21 where
  harsh_acceleration : ℚ
  harsh_braking : ℚ
  aggressive_turn : ℚ
  speeding : ℚ
  minimum_speed : ℚ
  acceleration_noise : ℚ
  gps_noise : ℚ
  stability_time : ℚ
  deriving DecidableEq, Repr

/-- The calibrated v2.1 defaults. -/
def defaultThresholdsV21 : ThresholdsV21 where
  harsh_acceleration := 3.5
  harsh_braking := 3.5
  aggressive_turn := 5.5
  speeding := 20
  minimum_speed := 5
  acceleration_noise := 1
  gps_noise := 2
  stability_time := 3000

/-- The fields of a v2.1 enriched sample read by
`detectDrivingEventsFiltered`. -/
structure EnrichedV21 where
  timestampMs : ℚ
  lat : Option ℚ
  lon : Option ℚ
  velocidad : Option ℚ
  filtered_speed : Option ℚ
  filtered_acceleration : Option Vec3
  longitudinal_acceleration : Option ℚ
  deriving DecidableEq, Repr

/-- A classified driving event (v2.1 shape: no `method`, the harsh and
turn rules also record the filtered speed). -/
structure DrivingEventV21 where
  type : EventType
  severity : Severity
  value : ℚ
  direction : Option TurnDirection
  timestamp : ℚ
  lat : Option ℚ
  lon : Option ℚ
  speed : Option ℚ
  limit : Option ℚ
  confidence : ℕ
  deriving DecidableEq, Repr

/-- The v2.1 state read and written by `detectDrivingEventsFiltered`. -/
structure DetectStateV21 where
  thresholds : ThresholdsV21
  lastEventTime : EventTimes
  isVehicleMoving : Bool
  movementConfidence : ℕ
  currentSpeedLimit : ℚ
  deriving DecidableEq, Repr

/-- v2.1 `calculateSeverity` (src/unnamed/part_001 line 414). -/
def calculateSeverityV21 (value threshold : ℚ) : Severity :=
  let r := value / threshold
  if 2.5 ≤ r then .extreme
  else if 2 ≤ r then .high
  else if 1.5 ≤ r then .moderate
  else .low

/-- Block 1 of v2.1 `detectDrivingEventsFiltered`: harsh acceleration
(a `longitudinal_acceleration` of exactly `0` is falsy and skipped). -/
def v21AccelEvent (st : DetectStateV21) (data : EnrichedV21) (now minT : ℚ) :
    DetectStateV21 × List DrivingEventV21 :=
  if truthy data.longitudinal_acceleration ∧
      st.thresholds.harsh_acceleration < data.longitudinal_acceleration.getD 0 ∧
      debounceOk st.lastEventTime.harsh_acceleration now minT then
    ({ st with lastEventTime.harsh_acceleration := some now },
      [{ type := .harsh_acceleration,
         severity := calculateSeverityV21 (data.longitudinal_acceleration.getD 0)
           st.thresholds.harsh_acceleration,
         value := data.longitudinal_acceleration.getD 0, direction := none,
         timestamp := data.timestampMs, lat := data.lat, lon := data.lon,
         speed := data.filtered_speed, limit := none,
         confidence := st.movementConfidence }])
  else (st, [])

/-- Block 2 of v2.1 `detectDrivingEventsFiltered`: harsh braking. -/
def v21BrakeEvent (st : DetectStateV21) (data : EnrichedV21) (now minT : ℚ) :
    DetectStateV21 × List DrivingEventV21 :=
  if truthy data.longitudinal_acceleration ∧
      data.longitudinal_acceleration.getD 0 < -st.thresholds.harsh_braking ∧
      debounceOk st.lastEventTime.harsh_braking now minT then
    ({ st with lastEventTime.harsh_braking := some now },
      [{ type := .harsh_braking,
         severity := calculateSeverityV21 |data.longitudinal_acceleration.getD 0|
           st.thresholds.harsh_braking,
         value := |data.longitudinal_acceleration.getD 0|, direction := none,
         timestamp := data.timestampMs, lat := data.lat, lon := data.lon,
         speed := data.filtered_speed, limit := none,
         confidence := st.movementConfidence }])
  else (st, [])

/-- Block 3 of v2.1 `detectDrivingEventsFiltered`: aggressive turn,
gated on `filtered_speed > 15`. -/
def v21TurnEvent (st : DetectStateV21) (data : EnrichedV21) (now minT : ℚ) :
    DetectStateV21 × List DrivingEventV21 :=
  match data.filtered_acceleration with
  | none => (st, [])
  | some fa =>
    if 15 < data.filtered_speed.getD 0 ∧ st.thresholds.aggressive_turn < |fa.x| ∧
        debounceOk st.lastEventTime.aggressive_turn now minT then
      ({ st with lastEventTime.aggressive_turn := some now },
        [{ type := .aggressive_turn,
           severity := calculateSeverityV21 |fa.x| st.thresholds.aggressive_turn,
           value := |fa.x|,
           direction := some (if 0 < fa.x then .right else .left),
           timestamp := data.timestampMs, lat := data.lat, lon := data.lon,
           speed := data.filtered_speed, limit := none,
           confidence := st.movementConfidence }])
    else (st, [])

/-- Block 4 of v2.1 `detectDrivingEventsFiltered`: speeding, gated on
`filtered_speed > 30` and debounced over `3 × stability_time`. -/
def v21SpeedEvent (st : DetectStateV21) (data : EnrichedV21) (now minT : ℚ) :
    DetectStateV21 × List DrivingEventV21 :=
  if truthy data.filtered_speed ∧ 30 < data.filtered_speed.getD 0 then
    if st.thresholds.speeding < data.filtered_speed.getD 0 - st.currentSpeedLimit ∧
        debounceOk st.lastEventTime.speeding now (minT * 3) then
      ({ st with lastEventTime.speeding := some now },
        [{ type := .speeding,
           severity := calculateSpeedingSeverity (data.filtered_speed.getD 0 - st.currentSpeedLimit),
           value := data.filtered_speed.getD 0 - st.currentSpeedLimit, direction := none,
           timestamp := data.timestampMs, lat := data.lat, lon := data.lon,
           speed := data.filtered_speed, limit := some st.currentSpeedLimit,
           confidence := st.movementConfidence }])
    else (st, [])
  else (st, [])

/-- v2.1 `detectDrivingEventsFiltered`: event detection of the
calibrated variant: gated on real movement and minimum speed, running
the four per-type blocks in source order. -/
def detectDrivingEventsFilteredV21 (st : DetectStateV21) (data : EnrichedV21)
    (now : ℚ) : DetectStateV21 × List DrivingEventV21 :=
  if ¬ st.isVehicleMoving ∨ orQ data.filtered_speed 0 < st.thresholds.minimum_speed then
    (st, [])
  else
    let minT := st.thresholds.stability_time
    let p1 := v21AccelEvent st data now minT
    let p2 := v21BrakeEvent p1.1 data now minT
    let p3 := v21TurnEvent p2.1 data now minT
    let p4 := v21SpeedEvent p3.1 data now minT
    (p4.1, p1.2 ++ (p2.2 ++ (p3.2 ++ p4.2)))

/-!  Concrete scenario inputs used by the closed theorems below.  The
distance stand-in `distC` returns 10 km for every pair of fixes; any
value above the noise threshold serves, since the claims do not depend
on the haversine values. -/

def distC : ℚ → ℚ → ℚ → ℚ → ℚ := fun _ _ _ _ => 10000

/-- A structurally valid sample with no sensor payload. -/
def rawBare : RawData :=
  { timestamp := some ⟨true, 0⟩, participante := some ⟨true⟩,
    lat := none, lon := none, velocidad := none, x := none, y := none, z := none }

/-- GPS sample at 10 km/h with a 4 m/s² lateral (X) component. -/
def rawTurn1 : RawData :=
  { timestamp := some ⟨true, 0⟩, participante := some ⟨true⟩,
    lat := some 25, lon := some (-107), velocidad := some 10,
    x := some 4, y := some 0, z := some (9.8 : ℚ) }

/-- The same reading again from a displaced fix 2 s later. -/
def rawTurn2 : RawData :=
  { rawTurn1 with lat := some (25.1 : ℚ), timestamp := some ⟨true, 2000⟩ }

/-- GPS sample at 100 km/h (40 km/h over the default 60 limit), no
accelerometer payload. -/
def rawSpeed1 : RawData :=
  { timestamp := some ⟨true, 0⟩, participante := some ⟨true⟩,
    lat := some 25, lon := some (-107), velocidad := some 100,
    x := none, y := none, z := none }

def rawSpeed2 : RawData := { rawSpeed1 with lat := some (25.1 : ℚ) }

def rawSpeed3 : RawData := { rawSpeed1 with lat := some (25.2 : ℚ) }

/-- A constant accelerometer-only reading (all components nonzero). -/
def rawStill : RawData :=
  { timestamp := some ⟨true, 0⟩, participante := some ⟨true⟩,
    lat := none, lon := none, velocidad := none,
    x := some 1, y := some 1, z := some 9 }

/-- Degenerate negative thresholds (the engine accepts any merge-style
threshold override without validation). -/
def thrDegenerate : Thresholds :=
  { defaultThresholds with motion_threshold := -1, harsh_acceleration := -1 }

/-- Three-call speeding scenario: the first accepted sample only warms
up movement detection, the second and third emit speeding events
5000 ms apart. -/
def c3run1 : ProcState × Option ProcResult :=
  processDataPoint distC initState 2000 rawSpeed1

def c3run2 : ProcState × Option ProcResult :=
  processDataPoint distC c3run1.1 4000 rawSpeed2

def c3run3 : ProcState × Option ProcResult :=
  processDataPoint distC c3run2.1 9000 rawSpeed3

/-- A moving state whose last harsh braking fired at t = 2000 ms. -/
def stBrakeDeb : ProcState :=
  { initState with
    isVehicleMoving := true
    lastEventTime := ⟨none, some 2000, none, none⟩ }

/-- An enriched sample whose filtered Y component (−5 m/s²) triggers
the harsh-braking rule. -/
def enrBrake : Enriched where
  timestampMs := 2500
  lat := none
  lon := none
  velocidad := none
  x := none
  y := none
  z := none
  acceleration_magnitude := none
  filtered_acceleration := some ⟨0, -5, 0⟩
  estimated_speed := none
  longitudinal_acceleration := none
  vehicle_moving := true
  movement_confidence := 70
  gps_available := false
  detection_method := .accelOnly

/-- A moving v2.1 detector state with default thresholds. -/
def stV21Moving10 : DetectStateV21 where
  thresholds := defaultThresholdsV21
  lastEventTime := ⟨none, none, none, none⟩
  isVehicleMoving := true
  movementConfidence := 100
  currentSpeedLimit := 60

/-- A v2.1 enriched sample at 10 km/h with a strong lateral component. -/
def enrTurnV21 : EnrichedV21 where
  timestampMs := 0
  lat := none
  lon := none
  velocidad := none
  filtered_speed := some 10
  filtered_acceleration := some ⟨8, 0, 0⟩
  longitudinal_acceleration := none

/-- The evidence flags and uncapped confidence sum of
`updateHybridMovementDetection`, restated field by field for claim C5:
with GPS, +40 for the speed-over-threshold test, +30 for GPS
displacement, +30 for the accelerometer flag; without GPS, +70 for the
accelerometer flag and +30 for sustained motion. -/
def confUncapped (dist : ℚ → ℚ → ℚ → ℚ → ℚ) (st : ProcState) (raw : RawData)
    (now : ℚ) : ℕ :=
  let hasGPS := truthy raw.lat && truthy raw.lon
  let st0 := { st with gpsAvailable := hasGPS }
  let speedCriteria : Bool :=
    hasGPS && decide (st0.thresholds.minimum_speed < orQ raw.velocidad 0)
  let gpsMotion : Bool := if hasGPS then (hasGPSMovement dist st0 raw now).2 else false
  let stG := if hasGPS then (hasGPSMovement dist st0 raw now).1 else st0
  let accelMotion := (detectMotionFromAccelerometer stG raw now).2
  let stA := (detectMotionFromAccelerometer stG raw now).1
  if hasGPS then
    (if speedCriteria then 40 else 0) + (if gpsMotion then 30 else 0) +
      (if accelMotion then 30 else 0)
  else
    (if accelMotion then 70 else 0) +
      (if hasSustainedMotion stA.motionHistory then 30 else 0)

/-- A sample whose GPS latitude is exactly `0` (treated as absent). -/
def rawLat0 : RawData :=
  { rawBare with lat := some 0, lon := some (-107), velocidad := some 50 }

/-- A sample whose accelerometer X component is exactly `0`. -/
def rawZeroX : RawData :=
  { rawBare with x := some 0, y := some 2, z := some (9.8 : ℚ) }

/-- A state with an established baseline (for witnesses). -/
def stWithBase : ProcState :=
  { initState with baselineAcceleration := some ⟨0, 0, (9.8 : ℚ), (9.8 : ℚ)⟩ }

/-- The part of `processDataPoint` that runs after both gates have
passed, as a function of the movement-updated state `stB`. -/
def acceptPipeline (stB : ProcState) (raw : RawData) (now : ℚ) :
    ProcState × Option ProcResult :=
  let processed := enrichDataFieldTested stB raw
  let de := detectEventsHybrid stB processed now
  let stC := updateBuffer de.1 processed
  let stD := { stC with eventCounters := bumpCounters stC.eventCounters de.2 }
  (stD, some { processed := processed, events := de.2, counters := stD.eventCounters })

/-- A fresh processor configured like `st` (as built by the
constructor, keeping the configuration fields that `resetCounters`
deliberately preserves). -/
def freshLike (st : ProcState) : ProcState :=
  { initState with
    thresholds := st.thresholds
    bufferSize := st.bufferSize
    recordInterval := st.recordInterval
    currentSpeedLimit := st.currentSpeedLimit }

/-- The state after one accepted sample at t = 2000 (for the reset
scenario). -/
def st8 : ProcState := (processDataPoint distC initState 2000 rawBare).1

/-- Five stationary samples (constant accelerometer, no GPS), 2 s
apart. -/
def c4inputs : List (ℚ × RawData) :=
  [(2000, rawStill), (4000, rawStill), (6000, rawStill), (8000, rawStill),
   (10000, rawStill)]

/-- The C7 warm-up property of one accepted accelerometer-bearing
entry `(raw, post, result)` at (0-based) accelerometer index `k`:
for the first four such samples the enriched `filtered_acceleration`
is the raw reading unchanged; from the fifth onward the baseline is
set and the filtered reading is raw minus baseline, component-wise. -/
def warmupSpec (k : ℕ) (e : RawData × ProcState × ProcResult) : Prop :=
  (k ≤ 3 → e.2.2.processed.filtered_acceleration =
    some ⟨e.1.x.getD 0, e.1.y.getD 0, e.1.z.getD 0⟩) ∧
  (4 ≤ k → ∃ b, e.2.1.baselineAcceleration = some b ∧
    e.2.2.processed.filtered_acceleration =
      some ⟨e.1.x.getD 0 - b.x, e.1.y.getD 0 - b.y, e.1.z.getD 0 - b.z⟩)

/-- The 5th accepted accelerometer-bearing entry of the concrete
stationary run (0-based index 4), with a dummy default. -/
def c7val : RawData × ProcState × ProcResult :=
  (acceptedAccelEntries (procTrace distC initState c4inputs)).getD 4
    (rawStill, initState,
      { processed := enrBrake, events := [], counters := ⟨0, 0, 0, 0⟩ })

/-!  Pure-data views of the movement-detection steps (each function of
the state fields it reads), used to prove that `processDataPoint` does
not depend on the logging/availability fields that `resetCounters`
leaves behind. -/

/-- The next stored GPS fix of `hasGPSMovement`. -/
def gpsNext (lastP : Option GPSPoint) (lat lon : Option ℚ) (now : ℚ) : Option GPSPoint :=
  if truthy lat && truthy lon then some ⟨lat.getD 0, lon.getD 0, now⟩ else lastP

/-- The displacement-over-time flag of `hasGPSMovement`. -/
def gpsMoved (dist : ℚ → ℚ → ℚ → ℚ → ℚ) (lastP : Option GPSPoint) (noise : ℚ)
    (lat lon : Option ℚ) (now : ℚ) : Bool :=
  match lastP, truthy lat && truthy lon with
  | some p, true =>
    decide (noise <
      (if 0 < (now - p.timestamp) / 1000 then
        dist p.lat p.lon (lat.getD 0) (lon.getD 0) / ((now - p.timestamp) / 1000) * 3.6
      else 0))
  | _, _ => false

/-- The current accelerometer vector of `detectMotionFromAccelerometer`. -/
def dmAccel (data : RawData) (now : ℚ) : AccelSample :=
  { x := data.x.getD 0, y := data.y.getD 0, z := data.z.getD 0,
    magnitude := jsSqrt (data.x.getD 0 ^ 2 + data.y.getD 0 ^ 2 + data.z.getD 0 ^ 2),
    timestamp := now }

/-- The updated acceleration history of `detectMotionFromAccelerometer`. -/
def dmHist (hist : List AccelSample) (data : RawData) (now : ℚ) : List AccelSample :=
  pushBounded 10 hist (dmAccel data now)

/-- The updated baseline of `detectMotionFromAccelerometer`. -/
def dmBase (bl : Option Baseline) (hist : List AccelSample) (data : RawData)
    (now : ℚ) : Option Baseline :=
  if bl.isNone ∧ 5 ≤ (dmHist hist data now).length then
    calculateAccelerationBaseline (dmHist hist data now)
  else bl

/-- The motion flag of `detectMotionFromAccelerometer`. -/
def dmFlag (bl : Option Baseline) (hist : List AccelSample) (thrM : ℚ)
    (data : RawData) (now : ℚ) : Bool :=
  if (dmBase bl hist data now).isNone then false
  else decide (thrM <
    calculateAccelerationVariation (dmBase bl hist data now) (dmAccel data now))

/-- The updated motion history of `detectMotionFromAccelerometer`. -/
def dmMotion (bl : Option Baseline) (hist : List AccelSample)
    (mh : List MotionSample) (thrM : ℚ) (data : RawData) (now : ℚ) :
    List MotionSample :=
  if (dmBase bl hist data now).isNone then mh
  else
    pushBounded 20 mh
      ⟨dmFlag bl hist thrM data now,
        calculateAccelerationVariation (dmBase bl hist data now) (dmAccel data now),
        now⟩

/-!  Theorems. -/

/-- Classification of the v2.2 `calculateSeverity` by the ratio of
value to threshold. -/
theorem severity_cases (v t : ℚ) :
    (calculateSeverity v t = Severity.extreme ↔ 2 ≤ v / t) ∧
    (calculateSeverity v t = Severity.high ↔ 1.5 ≤ v / t ∧ v / t < 2) ∧
    (calculateSeverity v t = Severity.moderate ↔ 1.2 ≤ v / t ∧ v / t < 1.5) ∧
    (calculateSeverity v t = Severity.low ↔ v / t < 1.2) := by
  simp only [calculateSeverity]
  split_ifs with hA hB hC
  · exact ⟨iff_of_true rfl hA, iff_of_false (by simp) (fun h => by linarith [h.2]),
      iff_of_false (by simp) (fun h => by linarith [h.2]),
      iff_of_false (by simp) (fun h => by linarith)⟩
  · exact ⟨iff_of_false (by simp) (fun h => by linarith),
      iff_of_true rfl ⟨hB, by linarith⟩,
      iff_of_false (by simp) (fun h => by linarith [h.2]),
      iff_of_false (by simp) (fun h => by linarith)⟩
  · exact ⟨iff_of_false (by simp) (fun h => by linarith),
      iff_of_false (by simp) (fun h => by linarith [h.1]),
      iff_of_true rfl ⟨hC, by linarith⟩,
      iff_of_false (by simp) (fun h => by linarith)⟩
  · exact ⟨iff_of_false (by simp) (fun h => by linarith),
      iff_of_false (by simp) (fun h => by linarith [h.1]),
      iff_of_false (by simp) (fun h => by linarith [h.1]),
      iff_of_true rfl (by linarith)⟩

/-- Classification of the v2.1 `calculateSeverity` by the ratio of
value to threshold. -/
theorem severityV21_cases (v t : ℚ) :
    (calculateSeverityV21 v t = Severity.extreme ↔ 2.5 ≤ v / t) ∧
    (calculateSeverityV21 v t = Severity.high ↔ 2 ≤ v / t ∧ v / t < 2.5) ∧
    (calculateSeverityV21 v t = Severity.moderate ↔ 1.5 ≤ v / t ∧ v / t < 2) ∧
    (calculateSeverityV21 v t = Severity.low ↔ v / t < 1.5) := by
  simp only [calculateSeverityV21]
  split_ifs with hA hB hC
  · exact ⟨iff_of_true rfl hA, iff_of_false (by simp) (fun h => by linarith [h.2]),
      iff_of_false (by simp) (fun h => by linarith [h.2]),
      iff_of_false (by simp) (fun h => by linarith)⟩
  · exact ⟨iff_of_false (by simp) (fun h => by linarith),
      iff_of_true rfl ⟨hB, by linarith⟩,
      iff_of_false (by simp) (fun h => by linarith [h.2]),
      iff_of_false (by simp) (fun h => by linarith)⟩
  · exact ⟨iff_of_false (by simp) (fun h => by linarith),
      iff_of_false (by simp) (fun h => by linarith [h.1]),
      iff_of_true rfl ⟨hC, by linarith⟩,
      iff_of_false (by simp) (fun h => by linarith)⟩
  · exact ⟨iff_of_false (by simp) (fun h => by linarith),
      iff_of_false (by simp) (fun h => by linarith [h.1]),
      iff_of_false (by simp) (fun h => by linarith [h.1]),
      iff_of_true rfl (by linarith)⟩

/-- Claim C1, counterexample: in the field-tested variant
(src/data-processor.js), a `harsh_acceleration` value of exactly twice
the threshold (threshold 2, value 4, ratio 2.0) is classified
`extreme`, not `high` as the claim states. -/
theorem C1_counterexample :
    calculateSeverity (2 * 2) 2 = Severity.extreme ∧
      calculateSeverity (2 * 2) 2 ≠ Severity.high := by
  decide

/-- Claim C1 (amended): the field-tested variant classifies by
ratio ≥ 2.0 → extreme, ≥ 1.5 → high, ≥ 1.2 → moderate, else low, so
values of exactly 2× and 2.5× the threshold are both `extreme`; the
claimed cuts (≥ 2.5 → extreme, ≥ 2.0 → high, ≥ 1.5 → moderate) are
those of the v2.1 variant's `calculateSeverity`, under which 2× the
threshold is `high` and 2.5× is `extreme`. -/
theorem C1_severity_amended (v t : ℚ) (ht : 0 < t) :
    (calculateSeverity v t = Severity.extreme ↔ 2 ≤ v / t) ∧
    (calculateSeverity v t = Severity.high ↔ 1.5 ≤ v / t ∧ v / t < 2) ∧
    (calculateSeverity v t = Severity.moderate ↔ 1.2 ≤ v / t ∧ v / t < 1.5) ∧
    (calculateSeverity v t = Severity.low ↔ v / t < 1.2) ∧
    calculateSeverity (2 * t) t = Severity.extreme ∧
    calculateSeverity ((2.5 : ℚ) * t) t = Severity.extreme ∧
    (calculateSeverityV21 v t = Severity.extreme ↔ 2.5 ≤ v / t) ∧
    (calculateSeverityV21 v t = Severity.high ↔ 2 ≤ v / t ∧ v / t < 2.5) ∧
    (calculateSeverityV21 v t = Severity.moderate ↔ 1.5 ≤ v / t ∧ v / t < 2) ∧
    (calculateSeverityV21 v t = Severity.low ↔ v / t < 1.5) ∧
    calculateSeverityV21 (2 * t) t = Severity.high ∧
    calculateSeverityV21 ((2.5 : ℚ) * t) t = Severity.extreme := by
  obtain ⟨e1, e2, e3, e4⟩ := severity_cases v t
  obtain ⟨f1, f2, f3, f4⟩ := severityV21_cases v t
  have htz : t ≠ 0 := ne_of_gt ht
  have h2t : 2 * t / t = 2 := mul_div_cancel_right₀ 2 htz
  have h25t : (2.5 : ℚ) * t / t = 2.5 := mul_div_cancel_right₀ (2.5 : ℚ) htz
  refine ⟨e1, e2, e3, e4, ?_, ?_, f1, f2, f3, f4, ?_, ?_⟩
  · exact (severity_cases (2 * t) t).1.mpr (by rw [h2t])
  · exact (severity_cases ((2.5 : ℚ) * t) t).1.mpr (by rw [h25t]; norm_num)
  · exact (severityV21_cases (2 * t) t).2.1.mpr ⟨by rw [h2t], by rw [h2t]; norm_num⟩
  · exact (severityV21_cases ((2.5 : ℚ) * t) t).1.mpr (by rw [h25t])

/-- Witness for `C1_severity_amended` at `v = 3`, `t = 2`. -/
theorem C1_witness :
    (0 : ℚ) < 2 ∧
      (calculateSeverity 3 2 = Severity.high ↔
        1.5 ≤ (3 : ℚ) / 2 ∧ (3 : ℚ) / 2 < 2) ∧
      calculateSeverityV21 (2 * 2) 2 = Severity.high :=
  ⟨by norm_num, (C1_severity_amended 3 2 (by norm_num)).2.1,
    (C1_severity_amended 3 2 (by norm_num)).2.2.2.2.2.2.2.2.2.2.1⟩

/-- Every event emitted by v2.1 block 1 is a harsh acceleration. -/
theorem v21AccelEvent_type (st : DetectStateV21) (data : EnrichedV21) (now minT : ℚ)
    (e : DrivingEventV21) (he : e ∈ (v21AccelEvent st data now minT).2) :
    e.type = EventType.harsh_acceleration := by
  unfold v21AccelEvent at he
  split_ifs at he <;> simp_all

/-- Every event emitted by v2.1 block 2 is a harsh braking. -/
theorem v21BrakeEvent_type (st : DetectStateV21) (data : EnrichedV21) (now minT : ℚ)
    (e : DrivingEventV21) (he : e ∈ (v21BrakeEvent st data now minT).2) :
    e.type = EventType.harsh_braking := by
  unfold v21BrakeEvent at he
  split_ifs at he <;> simp_all

/-- Every event emitted by v2.1 block 3 is an aggressive turn. -/
theorem v21TurnEvent_type (st : DetectStateV21) (data : EnrichedV21) (now minT : ℚ)
    (e : DrivingEventV21) (he : e ∈ (v21TurnEvent st data now minT).2) :
    e.type = EventType.aggressive_turn := by
  unfold v21TurnEvent at he
  cases hfa : data.filtered_acceleration with
  | none => simp [hfa] at he
  | some fa =>
    simp only [hfa] at he
    split_ifs at he <;> simp_all

/-- Every event emitted by v2.1 block 4 is a speeding event. -/
theorem v21SpeedEvent_type (st : DetectStateV21) (data : EnrichedV21) (now minT : ℚ)
    (e : DrivingEventV21) (he : e ∈ (v21SpeedEvent st data now minT).2) :
    e.type = EventType.speeding := by
  unfold v21SpeedEvent at he
  split_ifs at he <;> simp_all

/-- v2.1 block 3 only emits when the filtered speed is above 15 km/h. -/
theorem v21TurnEvent_mem_speed (st : DetectStateV21) (data : EnrichedV21)
    (now minT : ℚ) (e : DrivingEventV21)
    (he : e ∈ (v21TurnEvent st data now minT).2) :
    (15 : ℚ) < data.filtered_speed.getD 0 := by
  unfold v21TurnEvent at he
  cases hfa : data.filtered_acceleration with
  | none => simp [hfa] at he
  | some fa =>
    simp only [hfa] at he
    split_ifs at he <;> simp_all

/-- Claim C2, counterexample: the hybrid detector of
src/data-processor.js has no speed gate on `aggressive_turn`.  Two
accepted samples at 10 km/h (below the claimed 15 km/h bar), the second
with |filtered x| = 4 > 3, make the full pipeline emit an
`aggressive_turn` event. -/
theorem C2_counterexample :
    rawTurn2.velocidad = some 10 ∧ (10 : ℚ) ≤ 15 ∧
      (processDataPoint distC (processDataPoint distC initState 2000 rawTurn1).1
          4000 rawTurn2).2.map (fun r => r.events.map (fun e => e.type)) =
        some [EventType.aggressive_turn] := by
  decide

/-- Claim C2 (amended): the 15 km/h gate on `aggressive_turn` belongs
to the v2.1 variant only — `detectDrivingEventsFiltered` of
src/unnamed/part_001 never emits an `aggressive_turn` when the sample's
filtered speed is at most 15 km/h; the hybrid v2.2 detector has no such
gate (see the counterexample). -/
theorem C2_turn_speed_gate_amended (st : DetectStateV21) (data : EnrichedV21)
    (now : ℚ) (h : data.filtered_speed.getD 0 ≤ 15) :
    ∀ e ∈ (detectDrivingEventsFilteredV21 st data now).2,
      e.type ≠ EventType.aggressive_turn := by
  intro e he
  have hngate : ¬ (15 : ℚ) < data.filtered_speed.getD 0 := not_lt.mpr h
  unfold detectDrivingEventsFilteredV21 at he
  by_cases hm : ¬ st.isVehicleMoving ∨ orQ data.filtered_speed 0 < st.thresholds.minimum_speed
  · rw [if_pos hm] at he
    simp at he
  · rw [if_neg hm] at he
    dsimp only at he
    simp only [List.mem_append] at he
    rcases he with h1 | h2 | h3 | h4
    · rw [v21AccelEvent_type _ _ _ _ _ h1]
      simp
    · rw [v21BrakeEvent_type _ _ _ _ _ h2]
      simp
    · exact absurd (v21TurnEvent_mem_speed _ _ _ _ _ h3) hngate
    · rw [v21SpeedEvent_type _ _ _ _ _ h4]
      simp

/-- Witness for `C2_turn_speed_gate_amended`: a moving v2.1 state at
10 km/h with an 8 m/s² lateral component emits no `aggressive_turn`. -/
theorem C2_witness :
    (stV21Moving10.thresholds = defaultThresholdsV21 ∧
        enrTurnV21.filtered_speed.getD 0 ≤ 15) ∧
      ∀ e ∈ (detectDrivingEventsFilteredV21 stV21Moving10 enrTurnV21 5000).2,
        e.type ≠ EventType.aggressive_turn :=
  ⟨⟨rfl, by decide⟩,
    C2_turn_speed_gate_amended stV21Moving10 enrTurnV21 5000 (by decide)⟩

/-- The debounce test is false for a truthy stored time within the
window. -/
theorem debounceOk_false (t0 now minT : ℚ) (h1 : t0 ≠ 0) (h2 : now - t0 ≤ minT) :
    debounceOk (some t0) now minT = false := by
  simp [debounceOk, truthy, h1, not_lt.mpr h2]

/-- Every event of v2.2 block 1 is a harsh acceleration passing its
debounce test. -/
theorem hybridAccelEvent_mem (st : ProcState) (data : Enriched) (now minT : ℚ)
    (e : DrivingEvent) (he : e ∈ (hybridAccelEvent st data now minT).2) :
    e.type = EventType.harsh_acceleration ∧
      debounceOk st.lastEventTime.harsh_acceleration now minT = true := by
  unfold hybridAccelEvent at he
  cases hfa : data.filtered_acceleration with
  | none => simp [hfa] at he
  | some fa =>
    simp only [hfa] at he
    split_ifs at he with hc
    · simp_all
    · simp at he

/-- Every event of v2.2 block 2 is a harsh braking passing its
debounce test. -/
theorem hybridBrakeEvent_mem (st : ProcState) (data : Enriched) (now minT : ℚ)
    (e : DrivingEvent) (he : e ∈ (hybridBrakeEvent st data now minT).2) :
    e.type = EventType.harsh_braking ∧
      debounceOk st.lastEventTime.harsh_braking now minT = true := by
  unfold hybridBrakeEvent at he
  cases hfa : data.filtered_acceleration with
  | none => simp [hfa] at he
  | some fa =>
    simp only [hfa] at he
    split_ifs at he with hc
    · simp_all
    · simp at he

/-- Every event of v2.2 block 3 is an aggressive turn passing its
debounce test. -/
theorem hybridTurnEvent_mem (st : ProcState) (data : Enriched) (now minT : ℚ)
    (e : DrivingEvent) (he : e ∈ (hybridTurnEvent st data now minT).2) :
    e.type = EventType.aggressive_turn ∧
      debounceOk st.lastEventTime.aggressive_turn now minT = true := by
  unfold hybridTurnEvent at he
  cases hfa : data.filtered_acceleration with
  | none => simp [hfa] at he
  | some fa =>
    simp only [hfa] at he
    split_ifs at he <;> simp_all

/-- Every event of v2.2 block 4 is a speeding event passing its
`2 × stability_time` debounce test. -/
theorem hybridSpeedEvent_mem (st : ProcState) (data : Enriched) (now minT : ℚ)
    (e : DrivingEvent) (he : e ∈ (hybridSpeedEvent st data now minT).2) :
    e.type = EventType.speeding ∧
      debounceOk st.lastEventTime.speeding now (minT * 2) = true := by
  unfold hybridSpeedEvent at he
  split_ifs at he with hg hc
  · simp_all
  · simp at he
  · simp at he

/-- v2.2 block 1 does not touch the other three `lastEventTime`
entries. -/
theorem hybridAccelEvent_keeps (st : ProcState) (data : Enriched) (now minT : ℚ) :
    (hybridAccelEvent st data now minT).1.lastEventTime.harsh_braking =
        st.lastEventTime.harsh_braking ∧
      (hybridAccelEvent st data now minT).1.lastEventTime.aggressive_turn =
        st.lastEventTime.aggressive_turn ∧
      (hybridAccelEvent st data now minT).1.lastEventTime.speeding =
        st.lastEventTime.speeding := by
  unfold hybridAccelEvent
  cases hfa : data.filtered_acceleration with
  | none => simp
  | some fa =>
    simp only
    split_ifs <;> simp

/-- v2.2 block 2 does not touch the other three `lastEventTime`
entries. -/
theorem hybridBrakeEvent_keeps (st : ProcState) (data : Enriched) (now minT : ℚ) :
    (hybridBrakeEvent st data now minT).1.lastEventTime.harsh_acceleration =
        st.lastEventTime.harsh_acceleration ∧
      (hybridBrakeEvent st data now minT).1.lastEventTime.aggressive_turn =
        st.lastEventTime.aggressive_turn ∧
      (hybridBrakeEvent st data now minT).1.lastEventTime.speeding =
        st.lastEventTime.speeding := by
  unfold hybridBrakeEvent
  cases hfa : data.filtered_acceleration with
  | none => simp
  | some fa =>
    simp only
    split_ifs <;> simp

/-- v2.2 block 3 does not touch the other three `lastEventTime`
entries. -/
theorem hybridTurnEvent_keeps (st : ProcState) (data : Enriched) (now minT : ℚ) :
    (hybridTurnEvent st data now minT).1.lastEventTime.harsh_acceleration =
        st.lastEventTime.harsh_acceleration ∧
      (hybridTurnEvent st data now minT).1.lastEventTime.harsh_braking =
        st.lastEventTime.harsh_braking ∧
      (hybridTurnEvent st data now minT).1.lastEventTime.speeding =
        st.lastEventTime.speeding := by
  unfold hybridTurnEvent
  cases hfa : data.filtered_acceleration with
  | none => simp
  | some fa =>
    simp only
    split_ifs <;> simp

/-- v2.1 blocks 1–3 do not touch the `speeding` entry of
`lastEventTime`. -/
theorem v21Blocks_keep_speeding (st : DetectStateV21) (data : EnrichedV21)
    (now minT : ℚ) :
    (v21AccelEvent st data now minT).1.lastEventTime.speeding =
        st.lastEventTime.speeding ∧
      (v21BrakeEvent st data now minT).1.lastEventTime.speeding =
        st.lastEventTime.speeding ∧
      (v21TurnEvent st data now minT).1.lastEventTime.speeding =
        st.lastEventTime.speeding := by
  refine ⟨?_, ?_, ?_⟩
  · unfold v21AccelEvent
    split_ifs <;> simp
  · unfold v21BrakeEvent
    split_ifs <;> simp
  · unfold v21TurnEvent
    cases hfa : data.filtered_acceleration with
    | none => simp
    | some fa =>
      simp only
      split_ifs <;> simp

/-- Every event of v2.1 block 4 passes its `3 × stability_time`
debounce test. -/
theorem v21SpeedEvent_mem_debounce (st : DetectStateV21) (data : EnrichedV21)
    (now minT : ℚ) (e : DrivingEventV21)
    (he : e ∈ (v21SpeedEvent st data now minT).2) :
    debounceOk st.lastEventTime.speeding now (minT * 3) = true := by
  unfold v21SpeedEvent at he
  split_ifs at he with hg hc
  · exact hc.2
  · simp at he
  · simp at he

/-- Claim C3, counterexample: the hybrid detector debounces speeding
over `2 × stability_time`, not 3×.  With the default
`stability_time = 2000`, two speeding events are emitted 5000 ms apart
(5000 ≤ 3 × 2000, so the claim says the second must be suppressed). -/
theorem C3_counterexample :
    initState.thresholds.stability_time = 2000 ∧
      (c3run2.2.map fun r => r.events.map fun e => e.type) =
        some [EventType.speeding] ∧
      c3run2.1.lastEventTime.speeding = some 4000 ∧
      (c3run3.2.map fun r => r.events.map fun e => e.type) =
        some [EventType.speeding] ∧
      (9000 : ℚ) - 4000 ≤ 3 * 2000 := by
  decide

/-- Claim C3 (amended): in the hybrid detector an event of one of the
three accelerometer types is suppressed within `stability_time`
milliseconds of the previous event of its type (so two samples 500 ms
apart both triggering harsh_braking at the default 2000 ms produce one
event), while speeding is suppressed within `2 × stability_time`; the
claimed `3 × stability_time` speeding window belongs to the v2.1
variant. -/
theorem C3_debounce_amended (st : ProcState) (data : Enriched) (now t0 : ℚ)
    (ht0 : t0 ≠ 0) :
    (st.lastEventTime.harsh_acceleration = some t0 →
        now - t0 ≤ st.thresholds.stability_time →
        ∀ e ∈ (detectEventsHybrid st data now).2,
          e.type ≠ EventType.harsh_acceleration) ∧
    (st.lastEventTime.harsh_braking = some t0 →
        now - t0 ≤ st.thresholds.stability_time →
        ∀ e ∈ (detectEventsHybrid st data now).2,
          e.type ≠ EventType.harsh_braking) ∧
    (st.lastEventTime.aggressive_turn = some t0 →
        now - t0 ≤ st.thresholds.stability_time →
        ∀ e ∈ (detectEventsHybrid st data now).2,
          e.type ≠ EventType.aggressive_turn) ∧
    (st.lastEventTime.speeding = some t0 →
        now - t0 ≤ st.thresholds.stability_time * 2 →
        ∀ e ∈ (detectEventsHybrid st data now).2,
          e.type ≠ EventType.speeding) ∧
    (∀ (stv : DetectStateV21) (d : EnrichedV21),
        stv.lastEventTime.speeding = some t0 →
        now - t0 ≤ stv.thresholds.stability_time * 3 →
        ∀ e ∈ (detectDrivingEventsFilteredV21 stv d now).2,
          e.type ≠ EventType.speeding) := by
  refine ⟨?_, ?_, ?_, ?_, ?_⟩
  · intro hle hwin e he
    unfold detectEventsHybrid at he
    by_cases hmov : ¬ st.isVehicleMoving
    · rw [if_pos hmov] at he
      simp at he
    · rw [if_neg hmov] at he
      dsimp only at he
      simp only [List.mem_append] at he
      rcases he with h1 | h2 | h3 | h4
      · exfalso
        have hd := (hybridAccelEvent_mem _ _ _ _ _ h1).2
        rw [hle, debounceOk_false t0 now _ ht0 hwin] at hd
        simp at hd
      · rw [(hybridBrakeEvent_mem _ _ _ _ _ h2).1]
        simp
      · rw [(hybridTurnEvent_mem _ _ _ _ _ h3).1]
        simp
      · rw [(hybridSpeedEvent_mem _ _ _ _ _ h4).1]
        simp
  · intro hle hwin e he
    unfold detectEventsHybrid at he
    by_cases hmov : ¬ st.isVehicleMoving
    · rw [if_pos hmov] at he
      simp at he
    · rw [if_neg hmov] at he
      dsimp only at he
      simp only [List.mem_append] at he
      rcases he with h1 | h2 | h3 | h4
      · rw [(hybridAccelEvent_mem _ _ _ _ _ h1).1]
        simp
      · exfalso
        have hd := (hybridBrakeEvent_mem _ _ _ _ _ h2).2
        rw [(hybridAccelEvent_keeps _ _ _ _).1, hle,
          debounceOk_false t0 now _ ht0 hwin] at hd
        simp at hd
      · rw [(hybridTurnEvent_mem _ _ _ _ _ h3).1]
        simp
      · rw [(hybridSpeedEvent_mem _ _ _ _ _ h4).1]
        simp
  · intro hle hwin e he
    unfold detectEventsHybrid at he
    by_cases hmov : ¬ st.isVehicleMoving
    · rw [if_pos hmov] at he
      simp at he
    · rw [if_neg hmov] at he
      dsimp only at he
      simp only [List.mem_append] at he
      rcases he with h1 | h2 | h3 | h4
      · rw [(hybridAccelEvent_mem _ _ _ _ _ h1).1]
        simp
      · rw [(hybridBrakeEvent_mem _ _ _ _ _ h2).1]
        simp
      · exfalso
        have hd := (hybridTurnEvent_mem _ _ _ _ _ h3).2
        rw [(hybridBrakeEvent_keeps _ _ _ _).2.1, (hybridAccelEvent_keeps _ _ _ _).2.1,
          hle, debounceOk_false t0 now _ ht0 hwin] at hd
        simp at hd
      · rw [(hybridSpeedEvent_mem _ _ _ _ _ h4).1]
        simp
  · intro hle hwin e he
    unfold detectEventsHybrid at he
    by_cases hmov : ¬ st.isVehicleMoving
    · rw [if_pos hmov] at he
      simp at he
    · rw [if_neg hmov] at he
      dsimp only at he
      simp only [List.mem_append] at he
      rcases he with h1 | h2 | h3 | h4
      · rw [(hybridAccelEvent_mem _ _ _ _ _ h1).1]
        simp
      · rw [(hybridBrakeEvent_mem _ _ _ _ _ h2).1]
        simp
      · rw [(hybridTurnEvent_mem _ _ _ _ _ h3).1]
        simp
      · exfalso
        have hd := (hybridSpeedEvent_mem _ _ _ _ _ h4).2
        rw [(hybridTurnEvent_keeps _ _ _ _).2.2, (hybridBrakeEvent_keeps _ _ _ _).2.2,
          (hybridAccelEvent_keeps _ _ _ _).2.2, hle,
          debounceOk_false t0 now _ ht0 hwin] at hd
        simp at hd
  · intro stv d hle hwin e he
    unfold detectDrivingEventsFilteredV21 at he
    by_cases hm : ¬ stv.isVehicleMoving ∨ orQ d.filtered_speed 0 < stv.thresholds.minimum_speed
    · rw [if_pos hm] at he
      simp at he
    · rw [if_neg hm] at he
      dsimp only at he
      simp only [List.mem_append] at he
      rcases he with h1 | h2 | h3 | h4
      · rw [v21AccelEvent_type _ _ _ _ _ h1]
        simp
      · rw [v21BrakeEvent_type _ _ _ _ _ h2]
        simp
      · rw [v21TurnEvent_type _ _ _ _ _ h3]
        simp
      · exfalso
        have hd := v21SpeedEvent_mem_debounce _ _ _ _ _ h4
        rw [(v21Blocks_keep_speeding _ _ _ _).2.2, (v21Blocks_keep_speeding _ _ _ _).2.1,
          (v21Blocks_keep_speeding _ _ _ _).1, hle,
          debounceOk_false t0 now _ ht0 hwin] at hd
        simp at hd

/-- Witness for `C3_debounce_amended`: the claim's own example — a
harsh-braking trigger 500 ms after the last harsh-braking event at the
default `stability_time = 2000` emits nothing of that type. -/
theorem C3_witness :
    ((2000 : ℚ) ≠ 0 ∧ stBrakeDeb.lastEventTime.harsh_braking = some 2000 ∧
        (2500 : ℚ) - 2000 ≤ stBrakeDeb.thresholds.stability_time) ∧
      ∀ e ∈ (detectEventsHybrid stBrakeDeb enrBrake 2500).2,
        e.type ≠ EventType.harsh_braking :=
  ⟨⟨by norm_num, by decide, by decide⟩,
    (C3_debounce_amended stBrakeDeb enrBrake 2500 2000 (by norm_num)).2.1
      (by decide) (by decide)⟩

/-- `hasGPSMovement` only moves the stored GPS fix. -/
theorem hasGPSMovement_gpsAvailable (dist : ℚ → ℚ → ℚ → ℚ → ℚ) (st : ProcState)
    (data : RawData) (now : ℚ) :
    (hasGPSMovement dist st data now).1.gpsAvailable = st.gpsAvailable := by
  cases hp : st.lastGPSPoint <;> cases hb : truthy data.lat && truthy data.lon <;>
    simp [hasGPSMovement, hp, hb]

/-- `motionFlagStep` does not touch `gpsAvailable`. -/
theorem motionFlagStep_gpsAvailable (st2 : ProcState) (ca : AccelSample) (now : ℚ) :
    (motionFlagStep st2 ca now).1.gpsAvailable = st2.gpsAvailable := by
  unfold motionFlagStep
  split_ifs <;> simp

/-- `detectMotionFromAccelerometer` does not touch `gpsAvailable`. -/
theorem detectMotion_gpsAvailable (st : ProcState) (data : RawData) (now : ℚ) :
    (detectMotionFromAccelerometer st data now).1.gpsAvailable = st.gpsAvailable := by
  unfold detectMotionFromAccelerometer
  split_ifs
  · simp only [motionFlagStep_gpsAvailable]
    split_ifs <;> simp
  · rfl

/-- Claim C5: the movement confidence equals the capped-at-100 sum of
the evidence contributions (+40 speed criteria, +30 GPS displacement,
+30 accelerometer when GPS is available; +70 accelerometer, +30
sustained motion when it is not), always lies in [0, 100], and
`isMoving` holds exactly when the confidence exceeds 50 (GPS available)
or 40 (GPS unavailable). -/
theorem C5_confidence_fusion (dist : ℚ → ℚ → ℚ → ℚ → ℚ) (st : ProcState)
    (raw : RawData) (now : ℚ) :
    (updateHybridMovementDetection dist st raw now).movementConfidence =
        min (confUncapped dist st raw now) 100 ∧
      0 ≤ (updateHybridMovementDetection dist st raw now).movementConfidence ∧
      (updateHybridMovementDetection dist st raw now).movementConfidence ≤ 100 ∧
      (updateHybridMovementDetection dist st raw now).isVehicleMoving =
        decide ((if truthy raw.lat && truthy raw.lon then 50 else 40) <
          (updateHybridMovementDetection dist st raw now).movementConfidence) := by
  by_cases hg : (truthy raw.lat && truthy raw.lon) = true
  · unfold updateHybridMovementDetection confUncapped
    simp only [hg, detectMotion_gpsAvailable, hasGPSMovement_gpsAvailable, if_true,
      Bool.true_and, eq_self_iff_true]
    split_ifs <;> simp_all
  · unfold updateHybridMovementDetection confUncapped
    simp only [hg, detectMotion_gpsAvailable, hasGPSMovement_gpsAvailable,
      Bool.not_eq_true] at *
    simp only [hg, Bool.false_and, if_false, Bool.false_eq_true]
    split_ifs <;> simp_all

/-- v2.2 block 4 only emits when `velocidad` is truthy. -/
theorem hybridSpeedEvent_mem_velocidad (st : ProcState) (data : Enriched)
    (now minT : ℚ) (e : DrivingEvent)
    (he : e ∈ (hybridSpeedEvent st data now minT).2) :
    truthy data.velocidad = true := by
  unfold hybridSpeedEvent at he
  split_ifs at he with hg hc
  · exact (Bool.and_eq_true_iff.mp hg).2
  · simp at he
  · simp at he

/-- Claim C9: sensor values equal to exactly 0 are treated as absent —
a zero `lat` or `lon` makes GPS unavailable; a zero accelerometer
component makes the sample contribute no motion evidence and leaves the
acceleration history (indeed the whole state) untouched; a GPS speed of
exactly 0 triggers accelerometer-based speed estimation while moving
and can never yield a speeding event. -/
theorem C9_zero_absent :
    (∀ (dist : ℚ → ℚ → ℚ → ℚ → ℚ) (st : ProcState) (raw : RawData) (now : ℚ),
        (¬ truthy raw.lat ∨ ¬ truthy raw.lon) →
        (updateHybridMovementDetection dist st raw now).gpsAvailable = false) ∧
    (∀ (st : ProcState) (raw : RawData) (now : ℚ),
        (raw.x = some 0 ∨ raw.y = some 0 ∨ raw.z = some 0) →
        detectMotionFromAccelerometer st raw now = (st, false)) ∧
    (∀ (st : ProcState) (raw : RawData),
        raw.velocidad = some 0 → st.isVehicleMoving = true →
        (enrichDataFieldTested st raw).estimated_speed =
          some (estimateSpeedFromAccelerometer st)) ∧
    (∀ (st : ProcState) (data : Enriched) (now : ℚ),
        data.velocidad = some 0 →
        ∀ e ∈ (detectEventsHybrid st data now).2, e.type ≠ EventType.speeding) := by
  refine ⟨?_, ?_, ?_, ?_⟩
  · intro dist st raw now h
    have hg : (truthy raw.lat && truthy raw.lon) = false := by
      rcases h with h | h <;> simp [Bool.and_eq_false_iff] <;> simp at h <;> simp [h]
    unfold updateHybridMovementDetection
    simp only [hg, detectMotion_gpsAvailable, hasGPSMovement_gpsAvailable,
      Bool.false_eq_true, if_false]
    split_ifs <;> simp_all
  · intro st raw now h
    have hx : (truthy raw.x && truthy raw.y && truthy raw.z) = false := by
      rcases h with h | h | h <;> simp [h, truthy]
    unfold detectMotionFromAccelerometer
    simp [hx]
  · intro st raw h hm
    have hv : truthy raw.velocidad = false := by simp [h, truthy]
    unfold enrichDataFieldTested
    split_ifs <;> simp_all <;> split <;> rfl
  · intro st data now h e he
    unfold detectEventsHybrid at he
    by_cases hmov : ¬ st.isVehicleMoving
    · rw [if_pos hmov] at he
      simp at he
    · rw [if_neg hmov] at he
      dsimp only at he
      simp only [List.mem_append] at he
      rcases he with h1 | h2 | h3 | h4
      · rw [(hybridAccelEvent_mem _ _ _ _ _ h1).1]
        simp
      · rw [(hybridBrakeEvent_mem _ _ _ _ _ h2).1]
        simp
      · rw [(hybridTurnEvent_mem _ _ _ _ _ h3).1]
        simp
      · exact absurd (hybridSpeedEvent_mem_velocidad _ _ _ _ _ h4)
          (by simp [h, truthy])

/-- Witness for `C9_zero_absent`: a latitude of exactly 0 leaves GPS
unavailable, and a zero X component leaves the state untouched with no
motion flag. -/
theorem C9_witness :
    ((¬ truthy rawLat0.lat ∨ ¬ truthy rawLat0.lon) ∧
        (updateHybridMovementDetection distC initState rawLat0 2000).gpsAvailable =
          false) ∧
      (rawZeroX.x = some 0 ∨ rawZeroX.y = some 0 ∨ rawZeroX.z = some 0) ∧
      detectMotionFromAccelerometer initState rawZeroX 2000 = (initState, false) :=
  ⟨⟨Or.inl (by decide),
      C9_zero_absent.1 distC initState rawLat0 2000 (Or.inl (by decide))⟩,
    Or.inl (by decide),
    C9_zero_absent.2.1 initState rawZeroX 2000 (Or.inl (by decide))⟩

/-- `hasGPSMovement` changes at most the stored GPS fix. -/
theorem hasGPSMovement_fst (dist : ℚ → ℚ → ℚ → ℚ → ℚ) (st : ProcState)
    (data : RawData) (now : ℚ) :
    (hasGPSMovement dist st data now).1 =
      { st with lastGPSPoint := (hasGPSMovement dist st data now).1.lastGPSPoint } := by
  cases hp : st.lastGPSPoint <;> cases hb : truthy data.lat && truthy data.lon <;>
    simp [hasGPSMovement, hp, hb] <;> rw [← hp]

/-- `motionFlagStep` changes at most the motion history. -/
theorem motionFlagStep_fst (st2 : ProcState) (ca : AccelSample) (now : ℚ) :
    (motionFlagStep st2 ca now).1 =
      { st2 with motionHistory := (motionFlagStep st2 ca now).1.motionHistory } := by
  unfold motionFlagStep
  split_ifs <;> rfl

/-- `detectMotionFromAccelerometer` changes at most the acceleration
history, the baseline and the motion history. -/
theorem detectMotion_fst (st : ProcState) (data : RawData) (now : ℚ) :
    (detectMotionFromAccelerometer st data now).1 =
      { st with
        accelerationHistory :=
          (detectMotionFromAccelerometer st data now).1.accelerationHistory
        baselineAcceleration :=
          (detectMotionFromAccelerometer st data now).1.baselineAcceleration
        motionHistory :=
          (detectMotionFromAccelerometer st data now).1.motionHistory } := by
  simp only [detectMotionFromAccelerometer]
  split_ifs <;> first
    | rfl
    | (rw [motionFlagStep_fst]; try rfl)

/-- `updateHybridMovementDetection` changes at most the movement
bookkeeping fields (GPS availability and fix, histories, baseline,
confidence, flag and log flag): rate-gate clock, thresholds, counters,
buffer and last-event times are untouched. -/
theorem updateHybrid_fst (dist : ℚ → ℚ → ℚ → ℚ → ℚ) (st : ProcState)
    (raw : RawData) (now : ℚ) :
    updateHybridMovementDetection dist st raw now =
      { st with
        gpsAvailable := (updateHybridMovementDetection dist st raw now).gpsAvailable
        lastGPSPoint := (updateHybridMovementDetection dist st raw now).lastGPSPoint
        accelerationHistory :=
          (updateHybridMovementDetection dist st raw now).accelerationHistory
        baselineAcceleration :=
          (updateHybridMovementDetection dist st raw now).baselineAcceleration
        motionHistory := (updateHybridMovementDetection dist st raw now).motionHistory
        movementConfidence :=
          (updateHybridMovementDetection dist st raw now).movementConfidence
        isVehicleMoving := (updateHybridMovementDetection dist st raw now).isVehicleMoving
        wasMoving := (updateHybridMovementDetection dist st raw now).wasMoving } := by
  simp only [updateHybridMovementDetection]
  split_ifs <;> (try rw [hasGPSMovement_fst]) <;> (try rw [detectMotion_fst]) <;> try rfl

/-- v2.2 block 1 changes at most `lastEventTime`. -/
theorem hybridAccelEvent_fst (st : ProcState) (data : Enriched) (now minT : ℚ) :
    (hybridAccelEvent st data now minT).1 =
      { st with lastEventTime := (hybridAccelEvent st data now minT).1.lastEventTime } := by
  simp only [hybridAccelEvent]
  cases data.filtered_acceleration <;> first
    | rfl
    | (simp only; split_ifs <;> rfl)

/-- v2.2 block 2 changes at most `lastEventTime`. -/
theorem hybridBrakeEvent_fst (st : ProcState) (data : Enriched) (now minT : ℚ) :
    (hybridBrakeEvent st data now minT).1 =
      { st with lastEventTime := (hybridBrakeEvent st data now minT).1.lastEventTime } := by
  simp only [hybridBrakeEvent]
  cases data.filtered_acceleration <;> first
    | rfl
    | (simp only; split_ifs <;> rfl)

/-- v2.2 block 3 changes at most `lastEventTime`. -/
theorem hybridTurnEvent_fst (st : ProcState) (data : Enriched) (now minT : ℚ) :
    (hybridTurnEvent st data now minT).1 =
      { st with lastEventTime := (hybridTurnEvent st data now minT).1.lastEventTime } := by
  simp only [hybridTurnEvent]
  cases data.filtered_acceleration <;> first
    | rfl
    | (simp only; split_ifs <;> rfl)

/-- v2.2 block 4 changes at most `lastEventTime`. -/
theorem hybridSpeedEvent_fst (st : ProcState) (data : Enriched) (now minT : ℚ) :
    (hybridSpeedEvent st data now minT).1 =
      { st with lastEventTime := (hybridSpeedEvent st data now minT).1.lastEventTime } := by
  simp only [hybridSpeedEvent]
  split_ifs <;> rfl

/-- `detectEventsHybrid` changes at most `lastEventTime`. -/
theorem detectEventsHybrid_fst (st : ProcState) (data : Enriched) (now : ℚ) :
    (detectEventsHybrid st data now).1 =
      { st with lastEventTime := (detectEventsHybrid st data now).1.lastEventTime } := by
  simp only [detectEventsHybrid]
  split_ifs <;> first
    | rfl
    | (dsimp only
       rw [hybridSpeedEvent_fst, hybridTurnEvent_fst, hybridBrakeEvent_fst,
         hybridAccelEvent_fst]
       try rfl)

/-- An established baseline survives `detectMotionFromAccelerometer`
(the baseline is only computed while it is `null`). -/
theorem detectMotion_baseline_some (st : ProcState) (data : RawData) (now : ℚ)
    (b : Baseline) (h : st.baselineAcceleration = some b) :
    (detectMotionFromAccelerometer st data now).1.baselineAcceleration = some b := by
  simp only [detectMotionFromAccelerometer]
  split_ifs with h1 h2 <;> first
    | (exact h)
    | (rw [motionFlagStep_fst]; simp [h]; done)
    | (exfalso; simp [h] at h2)

/-- An established baseline survives `updateHybridMovementDetection`. -/
theorem updateHybrid_baseline_some (dist : ℚ → ℚ → ℚ → ℚ → ℚ) (st : ProcState)
    (raw : RawData) (now : ℚ) (b : Baseline) (h : st.baselineAcceleration = some b) :
    (updateHybridMovementDetection dist st raw now).baselineAcceleration = some b := by
  simp only [updateHybridMovementDetection]
  split_ifs <;> (try rw [hasGPSMovement_fst]) <;>
    simp [detectMotion_baseline_some, h]

/-- `processDataPoint` returns `null` exactly for rate-gated or
structurally invalid samples. -/
theorem processDataPoint_none_iff (dist : ℚ → ℚ → ℚ → ℚ → ℚ) (st : ProcState)
    (now : ℚ) (raw : RawData) :
    (processDataPoint dist st now raw).2 = none ↔
      (now - st.lastRecordTime < st.recordInterval ∨
        validateDataStructure raw = false) := by
  simp only [processDataPoint, updateBuffer]
  split_ifs with h1 h2 <;> simp_all

/-- An accepted (or merely non-rate-gated) call moves the rate-limit
clock to `now` and keeps the configured interval. -/
theorem processDataPoint_post (dist : ℚ → ℚ → ℚ → ℚ → ℚ) (st : ProcState)
    (now : ℚ) (raw : RawData) (h : ¬ now - st.lastRecordTime < st.recordInterval) :
    (processDataPoint dist st now raw).1.lastRecordTime = now ∧
      (processDataPoint dist st now raw).1.recordInterval = st.recordInterval := by
  simp only [processDataPoint, updateBuffer]
  rw [if_neg h]
  split_ifs with hv
  · dsimp only
    rw [detectEventsHybrid_fst, updateHybrid_fst]
    simp
  · simp

/-- Claim C6: `processSample` returns null exactly when the sample is
rate-gated (sooner than `recordInterval` after the last accepted
sample) or structurally invalid (missing/mis-typed `timestamp` or
participant id); any other sample yields a result.  In particular,
with `recordInterval = 1500`, a second call 500 ms after an accepted
one returns null. -/
theorem C6_null_iff (dist : ℚ → ℚ → ℚ → ℚ → ℚ) (st : ProcState) (now : ℚ)
    (raw raw2 : RawData) :
    ((processDataPoint dist st now raw).2 = none ↔
      (now - st.lastRecordTime < st.recordInterval ∨
        validateDataStructure raw = false)) ∧
    (st.recordInterval = 1500 → (processDataPoint dist st now raw).2 ≠ none →
      (processDataPoint dist (processDataPoint dist st now raw).1 (now + 500)
          raw2).2 = none) := by
  refine ⟨processDataPoint_none_iff dist st now raw, ?_⟩
  intro hri hnn
  have hgate : ¬ (now - st.lastRecordTime < st.recordInterval ∨
      validateDataStructure raw = false) := fun hc =>
    hnn ((processDataPoint_none_iff dist st now raw).mpr hc)
  have hgate1 : ¬ now - st.lastRecordTime < st.recordInterval := fun hc =>
    hgate (Or.inl hc)
  obtain ⟨hlrt, hri2⟩ := processDataPoint_post dist st now raw hgate1
  refine (processDataPoint_none_iff dist _ _ raw2).mpr (Or.inl ?_)
  rw [hlrt, hri2, hri]
  norm_num

/-- Witness for `C6_null_iff`: a concrete accepted call at t = 2000
followed by a call 500 ms later that is dropped. -/
theorem C6_witness :
    (initState.recordInterval = 1500 ∧
        (processDataPoint distC initState 2000 rawBare).2 ≠ none) ∧
      (processDataPoint distC (processDataPoint distC initState 2000 rawBare).1
          (2000 + 500) rawBare).2 = none :=
  ⟨⟨by decide, by decide⟩,
    (C6_null_iff distC initState 2000 rawBare rawBare).2 (by decide) (by decide)⟩

/-- An established baseline survives a whole `processDataPoint` call. -/
theorem processDataPoint_baseline_some (dist : ℚ → ℚ → ℚ → ℚ → ℚ) (st : ProcState)
    (now : ℚ) (raw : RawData) (b : Baseline) (h : st.baselineAcceleration = some b) :
    (processDataPoint dist st now raw).1.baselineAcceleration = some b := by
  simp only [processDataPoint, updateBuffer]
  split_ifs with h1 h2
  · exact h
  · dsimp only
    rw [detectEventsHybrid_fst]
    simp [updateHybrid_baseline_some, h]
  · exact h

/-- An established baseline survives every later call of a session. -/
theorem procTrace_baseline_some (dist : ℚ → ℚ → ℚ → ℚ → ℚ) (b : Baseline) :
    ∀ (inputs : List (ℚ × RawData)) (st : ProcState),
      st.baselineAcceleration = some b →
      ∀ entry ∈ procTrace dist st inputs, entry.post.baselineAcceleration = some b := by
  intro inputs
  induction inputs with
  | nil =>
    intro st h entry he
    cases he
  | cons i rest ih =>
    intro st h entry he
    rw [procTrace] at he
    rcases List.mem_cons.mp he with rfl | htail
    · exact processDataPoint_baseline_some dist st i.1 i.2 b h
    · exact ih _ (processDataPoint_baseline_some dist st i.1 i.2 b h) entry htail

/-- Claim C10: once the acceleration baseline is established it is
never recomputed — every further `processDataPoint` call (and hence
every later state of the session trace) carries the same baseline;
while it is set, the filtered acceleration and the motion-variation
computation subtract exactly that baseline; only `resetCounters` sets
it back to `null`. -/
theorem C10_baseline_immutable (dist : ℚ → ℚ → ℚ → ℚ → ℚ) (st : ProcState)
    (now : ℚ) (raw : RawData) (b : Baseline) (inputs : List (ℚ × RawData))
    (h : st.baselineAcceleration = some b) :
    (processDataPoint dist st now raw).1.baselineAcceleration = some b ∧
    (∀ entry ∈ procTrace dist st inputs, entry.post.baselineAcceleration = some b) ∧
    (∀ x y z : ℚ, raw.x = some x → raw.y = some y → raw.z = some z →
        (enrichDataFieldTested st raw).filtered_acceleration =
          some ⟨x - b.x, y - b.y, z - b.z⟩) ∧
    (∀ cur : AccelSample, calculateAccelerationVariation st.baselineAcceleration cur =
        jsSqrt (|cur.x - b.x| ^ 2 + |cur.y - b.y| ^ 2 + |cur.z - b.z| ^ 2)) ∧
    (resetCounters st).baselineAcceleration = none := by
  refine ⟨processDataPoint_baseline_some dist st now raw b h,
    procTrace_baseline_some dist b inputs st h, ?_, ?_, rfl⟩
  · intro x y z hx hy hz
    unfold enrichDataFieldTested
    split_ifs <;> simp_all [calculateFilteredAcceleration, h] <;> split <;> simp_all
  · intro cur
    simp [calculateAccelerationVariation, h]

/-- Witness for `C10_baseline_immutable` at a concrete state. -/
theorem C10_witness :
    stWithBase.baselineAcceleration = some ⟨0, 0, (9.8 : ℚ), (9.8 : ℚ)⟩ ∧
      (processDataPoint distC stWithBase 2000 rawStill).1.baselineAcceleration =
        some ⟨0, 0, (9.8 : ℚ), (9.8 : ℚ)⟩ ∧
      (resetCounters stWithBase).baselineAcceleration = none :=
  ⟨by decide,
    (C10_baseline_immutable distC stWithBase 2000 rawStill ⟨0, 0, (9.8 : ℚ), (9.8 : ℚ)⟩
        [] (by decide)).1,
    (C10_baseline_immutable distC stWithBase 2000 rawStill ⟨0, 0, (9.8 : ℚ), (9.8 : ℚ)⟩
        [] (by decide)).2.2.2.2⟩

/-- `hasGPSMovement` as a function of the fields it reads. -/
theorem hasGPSMovement_eq (dist : ℚ → ℚ → ℚ → ℚ → ℚ) (st : ProcState)
    (data : RawData) (now : ℚ) :
    hasGPSMovement dist st data now =
      ({ st with lastGPSPoint := gpsNext st.lastGPSPoint data.lat data.lon now },
        gpsMoved dist st.lastGPSPoint st.thresholds.gps_noise data.lat data.lon now) := by
  cases hp : st.lastGPSPoint <;> cases hb : truthy data.lat && truthy data.lon <;>
    simp [hasGPSMovement, gpsNext, gpsMoved, hp, hb] <;> rw [← hp]

/-- `detectMotionFromAccelerometer` as a function of the fields it
reads. -/
theorem detectMotion_eq (st : ProcState) (data : RawData) (now : ℚ) :
    detectMotionFromAccelerometer st data now =
      (if ¬ (truthy data.x && truthy data.y && truthy data.z) then (st, false)
       else
        ({ st with
            accelerationHistory := dmHist st.accelerationHistory data now
            baselineAcceleration :=
              dmBase st.baselineAcceleration st.accelerationHistory data now
            motionHistory :=
              dmMotion st.baselineAcceleration st.accelerationHistory st.motionHistory
                st.thresholds.motion_threshold data now },
          dmFlag st.baselineAcceleration st.accelerationHistory
            st.thresholds.motion_threshold data now)) := by
  simp only [detectMotionFromAccelerometer, motionFlagStep, dmMotion, dmFlag, dmBase,
    dmHist, dmAccel]
  split_ifs <;> simp_all

set_option maxHeartbeats 1000000 in
/-- `updateHybridMovementDetection` is insensitive to the incoming
`gpsAvailable` and `wasMoving` values: it overwrites the former before
reading it, and its final logging step leaves `wasMoving` equal to
`some isVehicleMoving` regardless of the previous value. -/
theorem updateHybrid_congr (dist : ℚ → ℚ → ℚ → ℚ → ℚ) (raw : RawData) (now : ℚ)
    (X Y : ProcState)
    (h : { X with gpsAvailable := Y.gpsAvailable, wasMoving := Y.wasMoving } = Y) :
    updateHybridMovementDetection dist X raw now =
      updateHybridMovementDetection dist Y raw now := by
  have hf : Y.thresholds = X.thresholds ∧ Y.eventCounters = X.eventCounters ∧
      Y.dataBuffer = X.dataBuffer ∧ Y.bufferSize = X.bufferSize ∧
      Y.accelerationHistory = X.accelerationHistory ∧
      Y.motionHistory = X.motionHistory ∧
      Y.baselineAcceleration = X.baselineAcceleration ∧
      Y.lastEventTime = X.lastEventTime ∧ Y.isVehicleMoving = X.isVehicleMoving ∧
      Y.movementConfidence = X.movementConfidence ∧
      Y.lastRecordTime = X.lastRecordTime ∧ Y.recordInterval = X.recordInterval ∧
      Y.lastGPSPoint = X.lastGPSPoint ∧ Y.currentSpeedLimit = X.currentSpeedLimit := by
    rw [← h]
    simp
  obtain ⟨h1, h2, h3, h4, h5, h6, h7, h8, h9, h10, h11, h12, h13, h14⟩ := hf
  simp only [updateHybridMovementDetection, hasGPSMovement_eq, detectMotion_eq,
    h1, h2, h3, h4, h5, h6, h7, h8, h9, h10, h11, h12, h13, h14]
  clear h1 h2 h3 h4 h5 h6 h7 h8 h9 h10 h11 h12 h13 h14 h
  split_ifs <;> simp_all [beq_iff_eq]

/-- Claim C8, counterexample: `resetCounters` does not clear
`lastRecordTime`, so a sample 500 ms after the last accepted pre-reset
sample is still rate-gated after a reset, while a fresh session accepts
it. -/
theorem C8_counterexample :
    (processDataPoint distC
        (resetCounters (processDataPoint distC initState 2000 rawBare).1)
        2500 rawBare).2 = none ∧
      (processDataPoint distC initState 2500 rawBare).2 ≠ none ∧
      (resetCounters (processDataPoint distC initState 2000 rawBare).1).lastRecordTime =
        2000 := by
  decide

/-- On an accepted sample (both gates pass), `processDataPoint` is the
accept pipeline applied to the movement-updated state. -/
theorem processDataPoint_accept (dist : ℚ → ℚ → ℚ → ℚ → ℚ) (st : ProcState)
    (now : ℚ) (raw : RawData)
    (hg : ¬ now - st.lastRecordTime < st.recordInterval)
    (hv : validateDataStructure raw = true) :
    processDataPoint dist st now raw =
      acceptPipeline (updateHybridMovementDetection dist
        { st with lastRecordTime := now } raw now) raw now := by
  simp only [processDataPoint, acceptPipeline]
  rw [if_neg hg, if_neg (by simp [hv])]

/-- Claim C8 (amended): `resetCounters` is idempotent and clears the
counters, buffers, histories, baseline, GPS fix, last-event-time map
and movement state; however it keeps the rate-limit clock
`lastRecordTime`, so a post-reset call within `recordInterval` of the
last accepted pre-reset sample is still dropped.  Apart from that
clock, a post-reset call behaves exactly as in a fresh session with the
same configuration: once past both rate gates, `processDataPoint` from
the reset state and from the fresh state coincide (the surviving
`gpsAvailable`/`wasMoving` values are overwritten before being read). -/
theorem C8_reset_amended (st : ProcState) :
    resetCounters (resetCounters st) = resetCounters st ∧
    ((resetCounters st).eventCounters = ⟨0, 0, 0, 0⟩ ∧
      (resetCounters st).dataBuffer = [] ∧
      (resetCounters st).accelerationHistory = [] ∧
      (resetCounters st).motionHistory = [] ∧
      (resetCounters st).baselineAcceleration = none ∧
      (resetCounters st).lastGPSPoint = none ∧
      (resetCounters st).lastEventTime = ⟨none, none, none, none⟩ ∧
      (resetCounters st).isVehicleMoving = false ∧
      (resetCounters st).movementConfidence = 0) ∧
    (resetCounters st).lastRecordTime = st.lastRecordTime ∧
    (∀ (dist : ℚ → ℚ → ℚ → ℚ → ℚ) (now : ℚ) (raw : RawData),
      st.recordInterval ≤ now - st.lastRecordTime → st.recordInterval ≤ now →
      validateDataStructure raw = true →
      processDataPoint dist (resetCounters st) now raw =
        processDataPoint dist (freshLike st) now raw) := by
  refine ⟨rfl, ⟨rfl, rfl, rfl, rfl, rfl, rfl, rfl, rfl, rfl⟩, rfl, ?_⟩
  intro dist now raw hA hB hval
  have hg1 : ¬ now - (resetCounters st).lastRecordTime <
      (resetCounters st).recordInterval := by
    simp only [resetCounters]
    exact not_lt.mpr hA
  have hg2 : ¬ now - (freshLike st).lastRecordTime < (freshLike st).recordInterval := by
    simp only [freshLike, initState]
    rw [sub_zero]
    exact not_lt.mpr hB
  have hcongr := updateHybrid_congr dist raw now
    { resetCounters st with lastRecordTime := now }
    { freshLike st with lastRecordTime := now } (by rfl)
  rw [processDataPoint_accept dist (resetCounters st) now raw hg1 hval,
    processDataPoint_accept dist (freshLike st) now raw hg2 hval, hcongr]

/-- Witness for `C8_reset_amended`: after the accepted sample at
t = 2000 and a reset, a call at t = 4000 equals the fresh-session
call. -/
theorem C8_witness :
    (st8.recordInterval ≤ (4000 : ℚ) - st8.lastRecordTime ∧
        st8.recordInterval ≤ (4000 : ℚ) ∧ validateDataStructure rawStill = true) ∧
      processDataPoint distC (resetCounters st8) 4000 rawStill =
        processDataPoint distC (freshLike st8) 4000 rawStill :=
  ⟨⟨by decide, by decide, by decide⟩,
    (C8_reset_amended st8).2.2.2 distC 4000 rawStill (by decide) (by decide)
      (by decide)⟩

/-- Members of a bounded-FIFO push come from the old list or are the
pushed element. -/
theorem pushBounded_mem {α : Type} (bound : ℕ) (l : List α) (x a : α)
    (h : a ∈ pushBounded bound l x) : a ∈ l ∨ a = x := by
  simp only [pushBounded] at h
  split_ifs at h with h1
  · rcases List.mem_append.mp (List.tail_subset (l ++ [x]) h) with h2 | h2
    · exact Or.inl h2
    · exact Or.inr (List.mem_singleton.mp h2)
  · rcases List.mem_append.mp h with h2 | h2
    · exact Or.inl h2
    · exact Or.inr (List.mem_singleton.mp h2)

/-- Summing a constant over a list. -/
theorem map_const_sum {α : Type} (l : List α) (f : α → ℚ) (c : ℚ)
    (h : ∀ a ∈ l, f a = c) : (l.map f).sum = (l.length : ℚ) * c := by
  induction l with
  | nil => simp
  | cons a t ih =>
    simp only [List.map_cons, List.sum_cons, List.length_cons]
    rw [h a (List.mem_cons_self a t), ih (fun b hb => h b (List.mem_cons_of_mem a hb))]
    push_cast
    ring

/-- The mean of a constant list is that constant. -/
theorem mean_const {α : Type} (l : List α) (f : α → ℚ) (c : ℚ)
    (h : ∀ a ∈ l, f a = c) (hne : l.length ≠ 0) :
    (l.map f).sum / (l.length : ℚ) = c := by
  rw [map_const_sum l f c h, mul_comm, mul_div_assoc,
    div_self (Nat.cast_ne_zero.mpr hne), mul_one]

/-- The baseline computed from a history of constant readings carries
exactly those readings. -/
theorem calcBaseline_const (hist : List AccelSample) (cx cy cz : ℚ)
    (hc : ∀ a ∈ hist, a.x = cx ∧ a.y = cy ∧ a.z = cz) (b : Baseline)
    (hb : calculateAccelerationBaseline hist = some b) :
    b.x = cx ∧ b.y = cy ∧ b.z = cz := by
  simp only [calculateAccelerationBaseline] at hb
  split_ifs at hb with hlen
  have hsub : ∀ a ∈ hist.drop (hist.length - 5), a ∈ hist :=
    fun a ha => List.drop_subset _ _ ha
  have hlen5 : (hist.drop (hist.length - 5)).length ≠ 0 := by
    rw [List.length_drop]
    omega
  rw [Option.some.injEq] at hb
  subst hb
  exact ⟨mean_const _ _ cx (fun a ha => (hc a (hsub a ha)).1) hlen5,
    mean_const _ _ cy (fun a ha => (hc a (hsub a ha)).2.1) hlen5,
    mean_const _ _ cz (fun a ha => (hc a (hsub a ha)).2.2) hlen5⟩

/-- A motion history whose entries are all flagged not-moving never
shows sustained motion. -/
theorem hasSustainedMotion_of_all_false (mh : List MotionSample)
    (h : ∀ m ∈ mh, m.moving = false) : hasSustainedMotion mh = false := by
  simp only [hasSustainedMotion]
  split_ifs with hlen
  · rfl
  · have hf : (mh.drop (mh.length - 5)).filter (·.moving) = [] := by
      rw [List.filter_eq_nil]
      intro a ha
      simp [h a (List.drop_subset _ _ ha)]
    simp [hf]

/-- The event detector is a no-op while the vehicle is not moving. -/
theorem detectEventsHybrid_not_moving (st : ProcState) (data : Enriched) (now : ℚ)
    (h : st.isVehicleMoving = false) :
    detectEventsHybrid st data now = (st, []) := by
  simp [detectEventsHybrid, h]

/-- `motionFlagStep` on a reading that matches the (possible) baseline:
the flag is false, the appended motion-history entry is not-moving, and
everything except the motion history is untouched. -/
theorem motionFlagStep_stationary (st2 : ProcState) (ca : AccelSample) (now : ℚ)
    (cx cy cz : ℚ)
    (hmt : 0 ≤ st2.thresholds.motion_threshold)
    (hcx : ca.x = cx) (hcy : ca.y = cy) (hcz : ca.z = cz)
    (hhist : ∀ a ∈ st2.accelerationHistory, a.x = cx ∧ a.y = cy ∧ a.z = cz)
    (hb : ∀ b, st2.baselineAcceleration = some b → b.x = cx ∧ b.y = cy ∧ b.z = cz)
    (hm : ∀ m ∈ st2.motionHistory, m.moving = false) :
    (motionFlagStep st2 ca now).2 = false ∧
    (motionFlagStep st2 ca now).1.thresholds = st2.thresholds ∧
    (motionFlagStep st2 ca now).1.gpsAvailable = st2.gpsAvailable ∧
    (∀ a ∈ (motionFlagStep st2 ca now).1.accelerationHistory,
      a.x = cx ∧ a.y = cy ∧ a.z = cz) ∧
    (∀ m ∈ (motionFlagStep st2 ca now).1.motionHistory, m.moving = false) ∧
    (∀ b, (motionFlagStep st2 ca now).1.baselineAcceleration = some b →
      b.x = cx ∧ b.y = cy ∧ b.z = cz) := by
  cases hbo : st2.baselineAcceleration with
  | none =>
    refine ⟨?_, ?_, ?_, ?_, ?_, ?_⟩ <;>
      simp only [motionFlagStep, hbo, Option.isNone_none, if_pos] <;>
      first
        | rfl
        | exact hhist
        | exact hm
        | (intro b hbb; exact hb b (hbo ▸ hbb))
  | some b0 =>
    obtain ⟨hbx, hby, hbz⟩ := hb b0 hbo
    have hvar : calculateAccelerationVariation (some b0) ca = 0 := by
      simp [calculateAccelerationVariation, hbx, hby, hbz, hcx, hcy, hcz, jsSqrt]
    have hmov : decide (st2.thresholds.motion_threshold <
        calculateAccelerationVariation (some b0) ca) = false := by
      rw [hvar]
      exact decide_eq_false (not_lt.mpr hmt)
    refine ⟨?_, ?_, ?_, ?_, ?_, ?_⟩ <;>
      simp only [motionFlagStep, hbo, Option.isNone_some, Bool.false_eq_true, if_false,
        hmov]
    · exact hhist
    · intro m hmm
      rcases pushBounded_mem _ _ _ _ hmm with h | h
      · exact hm m h
      · subst h
        rfl
    · intro b hbb
      exact hb b (hbo ▸ hbb)

/-- `detectMotionFromAccelerometer` on a constant no-variation reading:
the flag stays false and the stationary shape of the state is
preserved (constant history, not-moving motion entries, constant
baseline). -/
theorem detectMotion_stationary (st : ProcState) (raw : RawData) (now cx cy cz : ℚ)
    (hmt : 0 ≤ st.thresholds.motion_threshold)
    (hx : raw.x = some cx) (hy : raw.y = some cy) (hz : raw.z = some cz)
    (h1 : ∀ a ∈ st.accelerationHistory, a.x = cx ∧ a.y = cy ∧ a.z = cz)
    (h2 : ∀ m ∈ st.motionHistory, m.moving = false)
    (h3 : ∀ b, st.baselineAcceleration = some b → b.x = cx ∧ b.y = cy ∧ b.z = cz) :
    (detectMotionFromAccelerometer st raw now).2 = false ∧
    (detectMotionFromAccelerometer st raw now).1.thresholds = st.thresholds ∧
    (detectMotionFromAccelerometer st raw now).1.gpsAvailable = st.gpsAvailable ∧
    (∀ a ∈ (detectMotionFromAccelerometer st raw now).1.accelerationHistory,
      a.x = cx ∧ a.y = cy ∧ a.z = cz) ∧
    (∀ m ∈ (detectMotionFromAccelerometer st raw now).1.motionHistory,
      m.moving = false) ∧
    (∀ b, (detectMotionFromAccelerometer st raw now).1.baselineAcceleration = some b →
      b.x = cx ∧ b.y = cy ∧ b.z = cz) := by
  by_cases ht : (truthy raw.x && truthy raw.y && truthy raw.z) = true
  · have hca : ∀ a ∈ pushBounded 10 st.accelerationHistory
        (⟨cx, cy, cz, jsSqrt (cx ^ 2 + cy ^ 2 + cz ^ 2), now⟩ : AccelSample),
        a.x = cx ∧ a.y = cy ∧ a.z = cz := by
      intro a ha
      rcases pushBounded_mem _ _ _ _ ha with h | h
      · exact h1 a h
      · subst h
        exact ⟨rfl, rfl, rfl⟩
    simp only [detectMotionFromAccelerometer, hx, hy, hz, Option.getD_some]
    rw [if_neg (fun hc => hc (by rw [hx, hy, hz] at ht; exact ht))]
    split_ifs with hcond
    · exact motionFlagStep_stationary _ _ now cx cy cz hmt rfl rfl rfl hca
        (fun b hbb => calcBaseline_const _ cx cy cz hca b hbb) h2
    · exact motionFlagStep_stationary _ _ now cx cy cz hmt rfl rfl rfl hca h3 h2
  · simp only [detectMotionFromAccelerometer]
    rw [if_pos (by simpa using ht)]
    exact ⟨rfl, rfl, rfl, h1, h2, h3⟩

/-- The hybrid movement update on a no-GPS constant-reading sample:
the vehicle stays classified as not moving (confidence 0) and the
stationary shape of the state is preserved. -/
theorem updateHybrid_stationary (dist : ℚ → ℚ → ℚ → ℚ → ℚ) (st : ProcState)
    (raw : RawData) (now cx cy cz : ℚ)
    (hmt : 0 ≤ st.thresholds.motion_threshold)
    (hgps : (truthy raw.lat && truthy raw.lon) = false)
    (hx : raw.x = some cx) (hy : raw.y = some cy) (hz : raw.z = some cz)
    (h1 : ∀ a ∈ st.accelerationHistory, a.x = cx ∧ a.y = cy ∧ a.z = cz)
    (h2 : ∀ m ∈ st.motionHistory, m.moving = false)
    (h3 : ∀ b, st.baselineAcceleration = some b → b.x = cx ∧ b.y = cy ∧ b.z = cz) :
    (updateHybridMovementDetection dist st raw now).isVehicleMoving = false ∧
    (updateHybridMovementDetection dist st raw now).thresholds = st.thresholds ∧
    (∀ a ∈ (updateHybridMovementDetection dist st raw now).accelerationHistory,
      a.x = cx ∧ a.y = cy ∧ a.z = cz) ∧
    (∀ m ∈ (updateHybridMovementDetection dist st raw now).motionHistory,
      m.moving = false) ∧
    (∀ b, (updateHybridMovementDetection dist st raw now).baselineAcceleration = some b →
      b.x = cx ∧ b.y = cy ∧ b.z = cz) := by
  obtain ⟨f1, f2, f3, f4, f5, f6⟩ :=
    detectMotion_stationary { st with gpsAvailable := false } raw now cx cy cz hmt
      hx hy hz h1 h2 h3
  have hga : (detectMotionFromAccelerometer { st with gpsAvailable := false }
      raw now).1.gpsAvailable = false := by rw [f3]
  have hsus := hasSustainedMotion_of_all_false _ f5
  simp only [updateHybridMovementDetection, hgps, Bool.false_eq_true, if_false]
  simp only [f1, hga, hsus, Bool.false_eq_true, if_false]
  split_ifs <;>
    exact ⟨by simp, f2, f4, f5, f6⟩

/-- One `processDataPoint` call on a no-GPS constant-reading sample
keeps the stationary shape of the state and, when a result is
produced, its event list is empty. -/
theorem processDataPoint_stationary (dist : ℚ → ℚ → ℚ → ℚ → ℚ) (st : ProcState)
    (now : ℚ) (raw : RawData) (cx cy cz : ℚ)
    (hmt : 0 ≤ st.thresholds.motion_threshold)
    (hgps : (truthy raw.lat && truthy raw.lon) = false)
    (hx : raw.x = some cx) (hy : raw.y = some cy) (hz : raw.z = some cz)
    (h1 : ∀ a ∈ st.accelerationHistory, a.x = cx ∧ a.y = cy ∧ a.z = cz)
    (h2 : ∀ m ∈ st.motionHistory, m.moving = false)
    (h3 : ∀ b, st.baselineAcceleration = some b → b.x = cx ∧ b.y = cy ∧ b.z = cz) :
    (processDataPoint dist st now raw).1.thresholds = st.thresholds ∧
    (∀ a ∈ (processDataPoint dist st now raw).1.accelerationHistory,
      a.x = cx ∧ a.y = cy ∧ a.z = cz) ∧
    (∀ m ∈ (processDataPoint dist st now raw).1.motionHistory, m.moving = false) ∧
    (∀ b, (processDataPoint dist st now raw).1.baselineAcceleration = some b →
      b.x = cx ∧ b.y = cy ∧ b.z = cz) ∧
    (∀ r, (processDataPoint dist st now raw).2 = some r → r.events = []) := by
  simp only [processDataPoint, updateBuffer]
  split_ifs with hg hv
  · exact ⟨rfl, h1, h2, h3, by simp⟩
  · dsimp only
    obtain ⟨g1, g2, g3, g4, g5⟩ := updateHybrid_stationary dist
      { st with lastRecordTime := now } raw now cx cy cz hmt hgps hx hy hz h1 h2 h3
    rw [detectEventsHybrid_not_moving
      (updateHybridMovementDetection dist { st with lastRecordTime := now } raw now)
      (enrichDataFieldTested
        (updateHybridMovementDetection dist { st with lastRecordTime := now } raw now)
        raw)
      now g1]
    refine ⟨g2, g3, g4, g5, ?_⟩
    intro r hr
    have hr2 := Option.some.inj hr
    subst hr2
    rfl
  · exact ⟨rfl, h1, h2, h3, by simp⟩

/-- Over a whole session: a no-GPS constant-reading stream keeps the
stationary state shape and every produced result has an empty event
list. -/
theorem procTrace_stationary (dist : ℚ → ℚ → ℚ → ℚ → ℚ) (cx cy cz : ℚ) :
    ∀ (inputs : List (ℚ × RawData)) (st : ProcState),
      0 ≤ st.thresholds.motion_threshold →
      (∀ a ∈ st.accelerationHistory, a.x = cx ∧ a.y = cy ∧ a.z = cz) →
      (∀ m ∈ st.motionHistory, m.moving = false) →
      (∀ b, st.baselineAcceleration = some b → b.x = cx ∧ b.y = cy ∧ b.z = cz) →
      (∀ p ∈ inputs, (truthy p.2.lat && truthy p.2.lon) = false ∧
        p.2.x = some cx ∧ p.2.y = some cy ∧ p.2.z = some cz) →
      ∀ e ∈ procTrace dist st inputs, ∀ r, e.res = some r → r.events = [] := by
  intro inputs
  induction inputs with
  | nil =>
    intro st _ _ _ _ _ e he
    cases he
  | cons i rest ih =>
    intro st hmt h1 h2 h3 hins e he
    obtain ⟨hgp, hx, hy, hz⟩ := hins i (List.mem_cons_self i rest)
    obtain ⟨g1, g2, g3, g4, g5⟩ :=
      processDataPoint_stationary dist st i.1 i.2 cx cy cz hmt hgp hx hy hz h1 h2 h3
    rw [procTrace] at he
    rcases List.mem_cons.mp he with rfl | htail
    · exact g5
    · have hmt2 : 0 ≤ (processDataPoint dist st i.1 i.2).1.thresholds.motion_threshold := by
        rw [g1]
        exact hmt
      exact ih _ hmt2 g2 g3 g4 (fun p hp => hins p (List.mem_cons_of_mem i hp)) e htail

/-- Claim C4, counterexample to the threshold-independence of the
stationary-stream half: under a configuration with a negative
`motion_threshold` (and a negative `harsh_acceleration` threshold),
a purely stationary no-GPS stream is classified as moving once the
baseline is established and emits a harsh_acceleration event. -/
theorem C4_counterexample :
    (∀ p ∈ c4inputs, (truthy p.2.lat && truthy p.2.lon) = false ∧
      p.2.x = some 1 ∧ p.2.y = some 1 ∧ p.2.z = some 9) ∧
    ∃ e ∈ procTrace distC { initState with thresholds := thrDegenerate } c4inputs,
      ∃ r, e.res = some r ∧ r.events ≠ [] := by
  decide

/-- Claim C4 (amended): while `isVehicleMoving` is false the event
detector emits no events, for every state, sample and configuration;
and a stationary stream (constant accelerometer reading, no GPS) from
a fresh session produces no event for every configuration whose
`motion_threshold` is nonnegative (the unconditional reading of the
claim fails for negative `motion_threshold`, which classifies a
zero-variation reading as motion). -/
theorem C4_motion_gating_amended :
    (∀ (st : ProcState) (data : Enriched) (now : ℚ),
      st.isVehicleMoving = false → (detectEventsHybrid st data now).2 = []) ∧
    (∀ (cx cy cz : ℚ) (dist : ℚ → ℚ → ℚ → ℚ → ℚ) (thr : Thresholds)
      (inputs : List (ℚ × RawData)),
      0 ≤ thr.motion_threshold →
      (∀ p ∈ inputs, (truthy p.2.lat && truthy p.2.lon) = false ∧
        p.2.x = some cx ∧ p.2.y = some cy ∧ p.2.z = some cz) →
      ∀ e ∈ procTrace dist { initState with thresholds := thr } inputs,
        ∀ r, e.res = some r → r.events = []) := by
  constructor
  · intro st data now h
    rw [detectEventsHybrid_not_moving st data now h]
  · intro cx cy cz dist thr inputs hmt hins
    exact procTrace_stationary dist cx cy cz inputs { initState with thresholds := thr }
      hmt (by simp [initState]) (by simp [initState]) (by simp [initState]) hins

/-- Witness for `C4_motion_gating_amended`: a fresh processor is not
moving, and the detector emits nothing on a concrete enriched sample;
a concrete stationary default-threshold stream produces only empty
event lists. -/
theorem C4_witness :
    (initState.isVehicleMoving = false ∧
      (detectEventsHybrid initState enrBrake 3000).2 = []) ∧
    ((0 : ℚ) ≤ defaultThresholds.motion_threshold ∧
      ∀ e ∈ procTrace distC { initState with thresholds := defaultThresholds }
        c4inputs, ∀ r, e.res = some r → r.events = []) :=
  ⟨⟨by decide, C4_motion_gating_amended.1 initState enrBrake 3000 (by decide)⟩,
    ⟨by decide, C4_motion_gating_amended.2 1 1 9 distC defaultThresholds c4inputs
      (by decide) (by decide)⟩⟩

/-- A truthy optional number is present. -/
theorem truthy_isSome (o : Option ℚ) (h : truthy o = true) : o.isSome = true := by
  cases o with
  | none => simp [truthy] at h
  | some q => rfl

/-- A bounded push that stays within the bound is a plain append. -/
theorem pushBounded_eq_append {α : Type} (bound : ℕ) (l : List α) (x : α)
    (h : l.length + 1 ≤ bound) : pushBounded bound l x = l ++ [x] := by
  simp only [pushBounded]
  rw [if_neg]
  simp only [List.length_append, List.length_singleton]
  omega

/-- Five history entries are enough to compute a baseline. -/
theorem calcBaseline_isSome (hist : List AccelSample) (h : 5 ≤ hist.length) :
    (calculateAccelerationBaseline hist).isSome = true := by
  simp only [calculateAccelerationBaseline]
  rw [if_neg (by omega)]
  rfl

/-- A sample without a (truthy) full accelerometer triple leaves
`detectMotionFromAccelerometer` as the identity. -/
theorem detectMotion_skip (st : ProcState) (raw : RawData) (now : ℚ)
    (hacc : accelBearing raw = false) :
    detectMotionFromAccelerometer st raw now = (st, false) := by
  simp only [accelBearing] at hacc
  simp [detectMotionFromAccelerometer, hacc]

/-- Below five history entries the accelerometer step just grows the
history; the baseline stays unestablished. -/
theorem detectMotion_grow (st : ProcState) (raw : RawData) (now : ℚ)
    (hacc : accelBearing raw = true)
    (hb : st.baselineAcceleration = none)
    (hlen : st.accelerationHistory.length + 1 < 5) :
    (detectMotionFromAccelerometer st raw now).1.baselineAcceleration = none ∧
    (detectMotionFromAccelerometer st raw now).1.accelerationHistory.length =
      st.accelerationHistory.length + 1 := by
  simp only [accelBearing] at hacc
  simp only [detectMotionFromAccelerometer]
  rw [if_neg (by simp [hacc])]
  rw [pushBounded_eq_append 10 _ _ (by omega)]
  rw [if_neg (fun hc => absurd hc.2 (by
    simp only [List.length_append, List.length_singleton]
    omega))]
  rw [motionFlagStep_fst]
  simp [hb]

/-- The fifth accelerometer-bearing sample establishes the baseline. -/
theorem detectMotion_establish (st : ProcState) (raw : RawData) (now : ℚ)
    (hacc : accelBearing raw = true)
    (hb : st.baselineAcceleration = none)
    (hlen : st.accelerationHistory.length + 1 = 5) :
    (detectMotionFromAccelerometer st raw now).1.baselineAcceleration.isSome = true := by
  simp only [accelBearing] at hacc
  simp only [detectMotionFromAccelerometer]
  rw [if_neg (by simp [hacc])]
  rw [pushBounded_eq_append 10 _ _ (by omega)]
  rw [if_pos ⟨by simp [hb], by
    simp only [List.length_append, List.length_singleton]
    omega⟩]
  rw [motionFlagStep_fst]
  simp only
  exact calcBaseline_isSome _ (by
    simp only [List.length_append, List.length_singleton]
    omega)

/-- Enrichment while no baseline exists passes the raw accelerometer
components through unchanged. -/
theorem enrich_filtered_none (st : ProcState) (raw : RawData)
    (hb : st.baselineAcceleration = none)
    (hsx : raw.x.isSome = true) (hsy : raw.y.isSome = true) (hsz : raw.z.isSome = true) :
    (enrichDataFieldTested st raw).filtered_acceleration =
      some ⟨raw.x.getD 0, raw.y.getD 0, raw.z.getD 0⟩ := by
  have hdef : raw.x.isSome = true ∧ raw.y.isSome = true ∧ raw.z.isSome = true :=
    ⟨hsx, hsy, hsz⟩
  simp only [enrichDataFieldTested, if_pos hdef]
  split_ifs <;> simp [calculateFilteredAcceleration, hb]

/-- Enrichment with an established baseline subtracts it
component-wise. -/
theorem enrich_filtered_some (st : ProcState) (raw : RawData) (b : Baseline)
    (hb : st.baselineAcceleration = some b)
    (hsx : raw.x.isSome = true) (hsy : raw.y.isSome = true) (hsz : raw.z.isSome = true) :
    (enrichDataFieldTested st raw).filtered_acceleration =
      some ⟨raw.x.getD 0 - b.x, raw.y.getD 0 - b.y, raw.z.getD 0 - b.z⟩ := by
  have hdef : raw.x.isSome = true ∧ raw.y.isSome = true ∧ raw.z.isSome = true :=
    ⟨hsx, hsy, hsz⟩
  simp only [enrichDataFieldTested, if_pos hdef]
  split_ifs <;> simp [calculateFilteredAcceleration, hb]

/-- Without an accelerometer triple the hybrid update keeps the
acceleration history and baseline. -/
theorem updateHybrid_skip (dist : ℚ → ℚ → ℚ → ℚ → ℚ) (st : ProcState)
    (raw : RawData) (now : ℚ) (hacc : accelBearing raw = false) :
    (updateHybridMovementDetection dist st raw now).baselineAcceleration =
      st.baselineAcceleration ∧
    (updateHybridMovementDetection dist st raw now).accelerationHistory =
      st.accelerationHistory := by
  simp only [updateHybridMovementDetection]
  split_ifs <;> (try rw [hasGPSMovement_fst]) <;>
    simp [detectMotion_skip _ raw now hacc]

/-- Below five history entries the hybrid update grows the history and
keeps the baseline unestablished. -/
theorem updateHybrid_grow (dist : ℚ → ℚ → ℚ → ℚ → ℚ) (st : ProcState)
    (raw : RawData) (now : ℚ) (hacc : accelBearing raw = true)
    (hb : st.baselineAcceleration = none)
    (hlen : st.accelerationHistory.length + 1 < 5) :
    (updateHybridMovementDetection dist st raw now).baselineAcceleration = none ∧
    (updateHybridMovementDetection dist st raw now).accelerationHistory.length =
      st.accelerationHistory.length + 1 := by
  simp only [updateHybridMovementDetection]
  split_ifs <;> (try rw [hasGPSMovement_fst]) <;>
    (constructor <;> simp [detectMotion_grow, hacc, hb, hlen])

/-- On the fifth accelerometer-bearing sample the hybrid update
establishes the baseline. -/
theorem updateHybrid_establish (dist : ℚ → ℚ → ℚ → ℚ → ℚ) (st : ProcState)
    (raw : RawData) (now : ℚ) (hacc : accelBearing raw = true)
    (hb : st.baselineAcceleration = none)
    (hlen : st.accelerationHistory.length + 1 = 5) :
    (updateHybridMovementDetection dist st raw now).baselineAcceleration.isSome =
      true := by
  simp only [updateHybridMovementDetection]
  split_ifs <;> (try rw [hasGPSMovement_fst]) <;>
    simp [detectMotion_establish, hacc, hb, hlen]

/-- Field view of the accept pipeline: history and baseline pass
through from the movement-updated state and the produced result
carries that state's enrichment with the detector's events. -/
theorem acceptPipeline_fields (stB : ProcState) (raw : RawData) (now : ℚ) :
    (acceptPipeline stB raw now).1.baselineAcceleration = stB.baselineAcceleration ∧
    (acceptPipeline stB raw now).1.accelerationHistory = stB.accelerationHistory ∧
    ∀ r, (acceptPipeline stB raw now).2 = some r →
      r.processed = enrichDataFieldTested stB raw := by
  simp only [acceptPipeline, updateBuffer]
  rw [detectEventsHybrid_fst]
  refine ⟨rfl, rfl, ?_⟩
  intro r hr
  have hr2 := Option.some.inj hr
  subst hr2
  rfl

/-- A dropped call leaves the baseline and the history untouched. -/
theorem processDataPoint_none_state (dist : ℚ → ℚ → ℚ → ℚ → ℚ) (st : ProcState)
    (now : ℚ) (raw : RawData)
    (h : (processDataPoint dist st now raw).2 = none) :
    (processDataPoint dist st now raw).1.baselineAcceleration =
      st.baselineAcceleration ∧
    (processDataPoint dist st now raw).1.accelerationHistory =
      st.accelerationHistory := by
  simp only [processDataPoint, updateBuffer] at h ⊢
  split_ifs at h ⊢ with h1 h2 <;> simp_all

/-- A call without an accelerometer triple leaves the baseline and the
history untouched (accepted or not). -/
theorem processDataPoint_noaccel_state (dist : ℚ → ℚ → ℚ → ℚ → ℚ) (st : ProcState)
    (now : ℚ) (raw : RawData) (hacc : accelBearing raw = false) :
    (processDataPoint dist st now raw).1.baselineAcceleration =
      st.baselineAcceleration ∧
    (processDataPoint dist st now raw).1.accelerationHistory =
      st.accelerationHistory := by
  simp only [processDataPoint, updateBuffer]
  split_ifs with h1 h2
  · exact ⟨rfl, rfl⟩
  · dsimp only
    rw [detectEventsHybrid_fst]
    have hs := updateHybrid_skip dist { st with lastRecordTime := now } raw now hacc
    exact ⟨by rw [hs.1], by rw [hs.2]⟩
  · exact ⟨rfl, rfl⟩

/-- One accepted accelerometer-bearing call at warm-up count `k0`: the
produced result satisfies the C7 warm-up property at index `k0` and
the state moves to warm-up count `k0 + 1`. -/
theorem processDataPoint_warmup (dist : ℚ → ℚ → ℚ → ℚ → ℚ) (st : ProcState)
    (now : ℚ) (raw : RawData) (k0 : ℕ)
    (hacc : accelBearing raw = true)
    (hI1 : k0 ≤ 4 → st.baselineAcceleration = none ∧
      st.accelerationHistory.length = k0)
    (hI2 : 5 ≤ k0 → st.baselineAcceleration.isSome = true)
    (r : ProcResult) (hr : (processDataPoint dist st now raw).2 = some r) :
    warmupSpec k0 (raw, (processDataPoint dist st now raw).1, r) ∧
    (k0 + 1 ≤ 4 → (processDataPoint dist st now raw).1.baselineAcceleration = none ∧
      (processDataPoint dist st now raw).1.accelerationHistory.length = k0 + 1) ∧
    (5 ≤ k0 + 1 →
      (processDataPoint dist st now raw).1.baselineAcceleration.isSome = true) := by
  have hg : ¬ now - st.lastRecordTime < st.recordInterval := by
    intro hc
    rw [(processDataPoint_none_iff dist st now raw).mpr (Or.inl hc)] at hr
    exact Option.noConfusion hr
  have hv : validateDataStructure raw = true := by
    cases hval : validateDataStructure raw with
    | true => rfl
    | false =>
      rw [(processDataPoint_none_iff dist st now raw).mpr (Or.inr hval)] at hr
      exact Option.noConfusion hr
  rw [processDataPoint_accept dist st now raw hg hv] at hr ⊢
  obtain ⟨hfB, hfH, hfR⟩ := acceptPipeline_fields
    (updateHybridMovementDetection dist { st with lastRecordTime := now } raw now)
    raw now
  have hproc := hfR r hr
  have hacc2 := hacc
  simp only [accelBearing, Bool.and_eq_true] at hacc2
  have hsx : raw.x.isSome = true := truthy_isSome _ hacc2.1.1
  have hsy : raw.y.isSome = true := truthy_isSome _ hacc2.1.2
  have hsz : raw.z.isSome = true := truthy_isSome _ hacc2.2
  simp only [warmupSpec]
  rcases Nat.lt_or_ge k0 4 with h4 | h4
  · obtain ⟨hb0, hl0⟩ := hI1 (by omega)
    obtain ⟨hgB, hgL⟩ := updateHybrid_grow dist { st with lastRecordTime := now }
      raw now hacc hb0
      (by show st.accelerationHistory.length + 1 < 5; omega)
    refine ⟨⟨?_, ?_⟩, ?_, ?_⟩
    · intro _
      rw [hproc]
      exact enrich_filtered_none _ raw hgB hsx hsy hsz
    · intro hge
      exact absurd hge (by omega)
    · intro _
      refine ⟨by rw [hfB]; exact hgB, ?_⟩
      rw [hfH, hgL]
      show st.accelerationHistory.length + 1 = k0 + 1
      omega
    · intro h5
      exact absurd h5 (by omega)
  · rcases Nat.eq_or_lt_of_le h4 with h4e | h5
    · obtain ⟨hb0, hl0⟩ := hI1 (by omega)
      have hest := updateHybrid_establish dist { st with lastRecordTime := now }
        raw now hacc hb0
        (by show st.accelerationHistory.length + 1 = 5; omega)
      obtain ⟨b, hbb⟩ := Option.isSome_iff_exists.mp hest
      refine ⟨⟨?_, ?_⟩, ?_, ?_⟩
      · intro h3
        exact absurd h3 (by omega)
      · intro _
        exact ⟨b, by rw [hfB]; exact hbb,
          by rw [hproc]; exact enrich_filtered_some _ raw b hbb hsx hsy hsz⟩
      · intro hle
        exact absurd hle (by omega)
      · intro _
        rw [hfB, hbb]
        rfl
    · have hs := hI2 (by omega)
      obtain ⟨b, hbb⟩ := Option.isSome_iff_exists.mp hs
      have hkeep := updateHybrid_baseline_some dist { st with lastRecordTime := now }
        raw now b hbb
      refine ⟨⟨?_, ?_⟩, ?_, ?_⟩
      · intro h3
        exact absurd h3 (by omega)
      · intro _
        exact ⟨b, by rw [hfB]; exact hkeep,
          by rw [hproc]; exact enrich_filtered_some _ raw b hkeep hsx hsy hsz⟩
      · intro hle
        exact absurd hle (by omega)
      · intro _
        rw [hfB, hkeep]
        rfl

/-- The accepted accelerometer-bearing entries of a session trace
satisfy the warm-up property, counting from the warm-up count of the
start state. -/
theorem acceptedAccel_warmup (dist : ℚ → ℚ → ℚ → ℚ → ℚ) :
    ∀ (inputs : List (ℚ × RawData)) (st : ProcState) (k0 : ℕ),
      (k0 ≤ 4 → st.baselineAcceleration = none ∧
        st.accelerationHistory.length = k0) →
      (5 ≤ k0 → st.baselineAcceleration.isSome = true) →
      ∀ (j : ℕ) (e : RawData × ProcState × ProcResult),
        (acceptedAccelEntries (procTrace dist st inputs)).get? j = some e →
        warmupSpec (k0 + j) e := by
  intro inputs
  induction inputs with
  | nil =>
    intro st k0 _ _ j e h
    simp [procTrace, acceptedAccelEntries] at h
  | cons i rest ih =>
    intro st k0 hI1 hI2 j e h
    cases hres : (processDataPoint dist st i.1 i.2).2 with
    | none =>
      have hnone : acceptedAccelEntries (procTrace dist st (i :: rest)) =
          acceptedAccelEntries
            (procTrace dist (processDataPoint dist st i.1 i.2).1 rest) := by
        simp [procTrace, acceptedAccelEntries, List.filterMap_cons, hres]
      rw [hnone] at h
      obtain ⟨p1, p2⟩ := processDataPoint_none_state dist st i.1 i.2 hres
      exact ih (processDataPoint dist st i.1 i.2).1 k0
        (fun hk => ⟨by rw [p1]; exact (hI1 hk).1, by rw [p2]; exact (hI1 hk).2⟩)
        (fun hk => by rw [p1]; exact hI2 hk) j e h
    | some r =>
      by_cases hac : accelBearing i.2 = true
      · have hcons : acceptedAccelEntries (procTrace dist st (i :: rest)) =
            (i.2, (processDataPoint dist st i.1 i.2).1, r) ::
              acceptedAccelEntries
                (procTrace dist (processDataPoint dist st i.1 i.2).1 rest) := by
          simp [procTrace, acceptedAccelEntries, List.filterMap_cons, hres, hac]
        rw [hcons] at h
        have main := processDataPoint_warmup dist st i.1 i.2 k0 hac hI1 hI2 r hres
        cases j with
        | zero =>
          rw [List.get?_cons_zero] at h
          have he := Option.some.inj h
          subst he
          rw [Nat.add_zero]
          exact main.1
        | succ j2 =>
          rw [List.get?_cons_succ] at h
          have hidx : k0 + (j2 + 1) = (k0 + 1) + j2 := by omega
          rw [hidx]
          exact ih (processDataPoint dist st i.1 i.2).1 (k0 + 1) main.2.1 main.2.2
            j2 e h
      · have hac2 : accelBearing i.2 = false := by
          cases haccb : accelBearing i.2 with
          | true => exact absurd haccb hac
          | false => rfl
        have hskip : acceptedAccelEntries (procTrace dist st (i :: rest)) =
            acceptedAccelEntries
              (procTrace dist (processDataPoint dist st i.1 i.2).1 rest) := by
          simp [procTrace, acceptedAccelEntries, List.filterMap_cons, hres, hac2]
        rw [hskip] at h
        obtain ⟨p1, p2⟩ := processDataPoint_noaccel_state dist st i.1 i.2 hac2
        exact ih (processDataPoint dist st i.1 i.2).1 k0
          (fun hk => ⟨by rw [p1]; exact (hI1 hk).1, by rw [p2]; exact (hI1 hk).2⟩)
          (fun hk => by rw [p1]; exact hI2 hk) j e h

/-- Claim C7: in a fresh session, each of the first four accepted
accelerometer-bearing samples has `filtered_acceleration` equal to the
raw components unchanged (no baseline yet); from the fifth such sample
onward the baseline is defined and `filtered_acceleration` is raw
minus baseline, component-wise. -/
theorem C7_warmup_filtering (dist : ℚ → ℚ → ℚ → ℚ → ℚ)
    (inputs : List (ℚ × RawData)) (j : ℕ) (e : RawData × ProcState × ProcResult)
    (h : (acceptedAccelEntries (procTrace dist initState inputs)).get? j = some e) :
    warmupSpec j e := by
  have hmain := acceptedAccel_warmup dist inputs initState 0
    (fun _ => ⟨rfl, rfl⟩) (fun hk => absurd hk (by omega)) j e h
  simpa using hmain

/-- Witness for `C7_warmup_filtering`: the fifth accepted
accelerometer-bearing sample of a concrete stationary run. -/
theorem C7_witness :
    (acceptedAccelEntries (procTrace distC initState c4inputs)).get? 4 =
      some c7val ∧ warmupSpec 4 c7val :=
  ⟨by decide, C7_warmup_filtering distC c4inputs 4 c7val (by decide)⟩
